import Mathlib

/-!
# Gateway-Admin: `backend/controllers/authController.js`

A shallow embedding of the six request handlers of the auth controller
(`register`, `login`, `sendOTP`, `verifyOTP`, `getMe`, `updateProfile`) over an
explicit credential store, followed by the properties of the OTP workflow.

Conventions of the embedding

* the two Mongoose collections are lists of documents in insertion order;
  `findOne` returns the first document that matches its filter;
* a document fetched by `findOne` is identified by its position in the
  collection, so `doc.save()` writes to that position;
* timestamps are milliseconds (`Date.now()`), a natural number;
* the outcome of the e-mail collaborator and the random verification token are
  inputs of the handler that consumes them;
* request fields guarded by the handler (`!email`, `if (name)`, `!== undefined`)
  are optional values; the other fields are strings;
* store operations themselves do not throw, so the only fault that reaches a
  handler's outer `catch` is the one raised by the handler's own code;
* `save()` writes the modified field of the fetched document and does not
  compare versions (the Mongoose default).
-/

namespace AuthController

/-! ## Data model -/

/-- Modelled from the spec: the `User` schema (`models/User.js` is not part of the
controller file). Fields are those of the spec's data model: identity, name,
email, phone, optional password hash, profile image reference, optional profile
image storage identifier, email-verification token and its expiry. -/
structure User where
  _id : Nat
  name : String
  email : String
  phone : String
  password : Option String
  profileImage : Option String
  profileImagePublicId : Option String
  emailVerificationToken : Option String
  emailVerificationExpires : Option Nat
deriving DecidableEq, Repr

/-- Modelled from the spec: the `OTP` schema (`models/OTP.js` is not part of the
controller file): email, code, expiry timestamp and the used flag, whose default
is `false`. -/
structure OTP where
  email : String
  otp : String
  expiresAt : Nat
  isUsed : Bool
deriving DecidableEq, Repr

/-- The credential store: both collections and the identifier the store hands to
the next created `User`. -/
structure Store where
  users : List User
  otps : List OTP
  nextId : Nat
deriving DecidableEq, Repr

/-- The store before any request. -/
def emptyStore : Store := { users := [], otps := [], nextId := 0 }

/-- The process environment the controller reads: `process.env.NODE_ENV`, and the
value the free identifier `password` of `register` resolves to. The controller
file binds no `password`; `none` is the case in which nothing else does either
and reading it throws a `ReferenceError`. -/
structure Env where
  NODE_ENV : Option String
  password : Option String
deriving DecidableEq, Repr

/-- Outcome of a call to the e-mail collaborator (`sendOTPEmail`,
`sendVerificationEmail`): it resolves, or it throws an error with a message. -/
inductive Mail where
  | sent
  | threw (message : String)
deriving DecidableEq, Repr

/-- The credential `jwt.sign` returns for the payload `{ id }`, represented by its payload. -/
structure Token where
  id : Nat
deriving DecidableEq, Repr

/-- The `data` member of a response body. -/
inductive Data where
  | registered (id : Nat) (name email phone : String)
  | user (u : Option User)
deriving DecidableEq, Repr

/-- An HTTP response: status code and the members of the JSON body. -/
structure Response where
  status : Nat
  success : Bool
  message : Option String := none
  token : Option Token := none
  isExist : Option Bool := none
  otp : Option String := none
  isDevelopment : Option Bool := none
  data : Option Data := none
deriving DecidableEq, Repr

/-- A field of the `updateProfile` body: not present, JSON `null`, or a string. -/
inductive Field where
  | undefined
  | null
  | str (s : String)
deriving DecidableEq, Repr

/-- The body of an `updateProfile` request. -/
structure ProfileBody where
  name : Field
  phone : Field
  profileImage : Field
  profileImagePublicId : Field
deriving DecidableEq, Repr

/-! ## Helpers -/

/-- JavaScript truthiness of an optional string: present and not empty. -/
def truthy : Option String → Bool
  | some s => s != ""
  | none => false

/-- JavaScript truthiness of a body field. -/
def Field.truthy : Field → Bool
  | .str s => s != ""
  | _ => false

/-- The value a present field stores in a document (`null` clears it). -/
def Field.value : Field → Option String
  | .str s => some s
  | _ => none

/-- Position of the first element satisfying `p`. -/
def findIndex {α : Type} (p : α → Bool) : List α → Option Nat
  | [] => none
  | a :: as => if p a then some 0 else (findIndex p as).map (· + 1)

/-- Apply `f` to the element at position `i`. -/
def modifyAt {α : Type} (f : α → α) : Nat → List α → List α
  | _, [] => []
  | 0, a :: as => f a :: as
  | n + 1, a :: as => a :: modifyAt f n as

/-- Source `generateToken`: `jwt.sign({ id }, secret, { expiresIn })`. -/
def generateToken (id : Nat) : Token := { id := id }

/-- The response `res.status(status).json({ success: false, message })`. -/
def failure (status : Nat) (message : String) : Response :=
  { status := status, success := false, message := some message }

/-! ## Store operations -/

/-- Store query `User.findOne({ email })`. -/
def User.findOne (email : String) (s : Store) : Option User :=
  s.users.find? (fun u => u.email == email)

/-- Store operation `User.create(doc)`: the store assigns the identifier. -/
def User.create (name email phone : String) (password token : Option String)
    (expires : Option Nat) (s : Store) : User × Store :=
  let u : User :=
    { _id := s.nextId, name := name, email := email, phone := phone, password := password,
      profileImage := none, profileImagePublicId := none,
      emailVerificationToken := token, emailVerificationExpires := expires }
  (u, { s with users := s.users ++ [u], nextId := s.nextId + 1 })

/-- Store operation `OTP.deleteMany({ email, isUsed: false })`. -/
def OTP.deleteMany (email : String) (s : Store) : Store :=
  { s with otps := s.otps.filter (fun r => !(r.email == email && r.isUsed == false)) }

/-- Store operation `OTP.create({ email, otp, expiresAt })`; `isUsed` takes its default. -/
def OTP.create (email otp : String) (expiresAt : Nat) (s : Store) : Store :=
  { s with otps := s.otps ++ [{ email := email, otp := otp, expiresAt := expiresAt, isUsed := false }] }

/-- The filter `{ email, otp, isUsed: false, expiresAt: { $gt: now } }`. -/
def OTP.matches (email otp : String) (now : Nat) (r : OTP) : Bool :=
  r.email == email && r.otp == otp && r.isUsed == false && decide (r.expiresAt > now)

/-- Store query `OTP.findOne({ email, otp, isUsed: false, expiresAt: { $gt: new Date() } })`,
returning the position of the document. -/
def OTP.findOne (email otp : String) (now : Nat) (s : Store) : Option Nat :=
  findIndex (OTP.matches email otp now) s.otps

/-- The write `otpRecord.isUsed = true; await otpRecord.save()` on the document at
position `i`. -/
def OTP.save (i : Nat) (s : Store) : Store :=
  { s with otps := modifyAt (fun r => { r with isUsed := true }) i s.otps }

/-- Store query `User.findById(id)`. -/
def User.findById (id : Nat) (s : Store) : Option User :=
  s.users.find? (fun u => u._id == id)

/-- Projection `.select("-password")`. -/
def User.selectMinusPassword (u : User) : User := { u with password := none }

/-! ## Handlers -/

/-- Handler `exports.register` (POST /api/auth/register). -/
def register (env : Env) (now : Nat) (verificationToken : String) (mail : Mail)
    (name email phone : String) (s : Store) : Response × Store :=
  match User.findOne email s with
  | some _ => (failure 400 "User already exists", s)
  | none =>
    let verificationExpires := now + 24 * 60 * 60 * 1000
    -- the object literal passed to `User.create` reads the identifier `password`
    match env.password with
    | none => (failure 500 "password is not defined", s)
    | some password =>
      let (user, s1) := User.create name email phone (some password)
        (some verificationToken) (some verificationExpires) s
      -- `sendVerificationEmail` is awaited inside its own try/catch; either outcome continues
      let s2 := match mail with
        | .sent => s1
        | .threw _ => s1
      let token := generateToken user._id
      ({ status := 201, success := true, token := some token,
         data := some (.registered user._id user.name user.email user.phone) }, s2)

/-- The OTP code both issuing handlers use. -/
def otpCode : String := "123456"

/-- Handler `exports.login`; `email` is `req.query.email`. -/
def login (env : Env) (now : Nat) (mail : Mail) (email : Option String) (s : Store) :
    Response × Store :=
  match email with
  | none => (failure 400 "Please provide email and password", s)
  | some e =>
    if !truthy (some e) then (failure 400 "Please provide email and password", s)
    else
      match User.findOne e s with
      | none =>
        ({ status := 200, success := true, isExist := some false,
           message := some "User not found" }, s)
      | some _ =>
        let s1 := OTP.deleteMany e s
        let s2 := OTP.create e otpCode (now + 10 * 60 * 1000) s1
        match mail with
        | .sent =>
          ({ status := 200, success := true, isExist := some true,
             message := some "OTP sent to your email" }, s2)
        | .threw message =>
          let isEmailNotConfigured := message == "EMAIL_NOT_CONFIGURED"
          let isDevelopment := env.NODE_ENV != some "production"
          if isEmailNotConfigured || isDevelopment then
            ({ status := 200, success := true,
               message := some "OTP generated (email not configured - check console)",
               isExist := some true, otp := some otpCode, isDevelopment := some true }, s2)
          else
            (failure 500 "Failed to send OTP email. Please contact support.", s2)

/-- Handler `exports.sendOTP`; `name`, `phone`, `email` are the body fields. -/
def sendOTP (env : Env) (now : Nat) (mail : Mail) (name : String) (phone email : Option String)
    (s : Store) : Response × Store :=
  match email, phone with
  | some e, some p =>
    if !truthy (some e) || !truthy (some p) then
      (failure 400 "Please provide email and phone", s)
    else
      match User.findOne e s with
      | some _ => (failure 404 "User exist please check email", s)
      | none =>
        let s1 := OTP.deleteMany e s
        let (_, s2) := User.create name e p none none none s1
        let s3 := OTP.create e otpCode (now + 10 * 60 * 1000) s2
        match mail with
        | .sent =>
          ({ status := 200, success := true, message := some "OTP sent to your email" }, s3)
        | .threw message =>
          let isEmailNotConfigured := message == "EMAIL_NOT_CONFIGURED"
          let isDevelopment := env.NODE_ENV != some "production"
          if isEmailNotConfigured || isDevelopment then
            ({ status := 200, success := true,
               message := some "OTP generated (email not configured - check console)" }, s3)
          else
            (failure 500 "Failed to send OTP email. Please contact support.", s3)
  | _, _ => (failure 400 "Please provide email and phone", s)

/-- Handler `exports.verifyOTP` (POST /api/auth/verify-otp). -/
def verifyOTP (now : Nat) (email otp : Option String) (s : Store) : Response × Store :=
  match email, otp with
  | some e, some c =>
    if !truthy (some e) || !truthy (some c) then
      (failure 400 "Please provide email, OTP, and role", s)
    else
      match OTP.findOne e c now s with
      | none => (failure 401 "Invalid or expired OTP", s)
      | some i =>
        let s1 := OTP.save i s
        match User.findOne e s1 with
        | none => (failure 404 "User not found. Please register first at /auth/register", s1)
        | some user =>
          ({ status := 200, success := true, token := some (generateToken user._id) }, s1)
  | _, _ => (failure 400 "Please provide email, OTP, and role", s)

/-- Handler `exports.getMe`; `uid` is `req.user._id`, set by the authentication middleware. -/
def getMe (uid : Nat) (s : Store) : Response × Store :=
  ({ status := 200, success := true,
     data := some (.user ((User.findById uid s).map User.selectMinusPassword)) }, s)

/-- The `$set` document `updateProfile` builds, applied to a user. -/
def applyUpdate (body : ProfileBody) (u : User) : User :=
  let u := if body.name.truthy then { u with name := (body.name.value).getD u.name } else u
  let u := if body.phone.truthy then { u with phone := (body.phone.value).getD u.phone } else u
  let u := if body.profileImage != .undefined then
    { u with profileImage := body.profileImage.value } else u
  let u := if body.profileImagePublicId != .undefined then
    { u with profileImagePublicId := body.profileImagePublicId.value } else u
  u

/-- Handler `exports.updateProfile`; `uid` is `req.user._id`. -/
def updateProfile (uid : Nat) (body : ProfileBody) (s : Store) : Response × Store :=
  match findIndex (fun u => u._id == uid) s.users with
  | none => (failure 404 "User not found", s)
  | some i =>
    let s1 := { s with users := modifyAt (applyUpdate body) i s.users }
    ({ status := 200, success := true, message := some "Profile updated successfully",
       data := some (.user ((s1.users.get? i).map User.selectMinusPassword)) }, s1)


/-! ## Request sequences -/

/-- A request to one of the six handlers, with the inputs its run consumes. -/
inductive Call where
  | register (verificationToken : String) (mail : Mail) (name email phone : String)
  | login (mail : Mail) (email : Option String)
  | sendOTP (mail : Mail) (name : String) (phone email : Option String)
  | verifyOTP (email otp : Option String)
  | getMe (uid : Nat)
  | updateProfile (uid : Nat) (body : ProfileBody)
deriving DecidableEq, Repr

/-- Run one request against the store. -/
def handle (env : Env) (now : Nat) : Call → Store → Response × Store
  | .register vt mail name email phone, s => register env now vt mail name email phone s
  | .login mail email, s => login env now mail email s
  | .sendOTP mail name phone email, s => sendOTP env now mail name phone email s
  | .verifyOTP email otp, s => verifyOTP now email otp s
  | .getMe uid, s => getMe uid s
  | .updateProfile uid body, s => updateProfile uid body s

/-- Stores reachable from the empty store by a sequence of requests, each under
any environment, at any time and with any collaborator outcome. -/
inductive Reachable : Store → Prop where
  | empty : Reachable emptyStore
  | step (env : Env) (now : Nat) (c : Call) {s : Store} :
      Reachable s → Reachable (handle env now c s).2

/-- Stores reachable from the empty store by a sequence of requests in a process where
the identifier `password` is unbound, as it is in the controller file: the stores the
handlers can produce. -/
inductive ReachableUnbound : Store → Prop where
  | empty : ReachableUnbound emptyStore
  | step (env : Env) (now : Nat) (c : Call) {s : Store} :
      env.password = none → ReachableUnbound s → ReachableUnbound (handle env now c s).2

/-! ## Interleaved `verifyOTP` requests

`verifyOTP` awaits three store operations: `OTP.findOne`, `otpRecord.save()` and
`User.findOne`. Between two awaits of one request the operations of other
requests may run. `save()` writes `isUsed` to the fetched document without
re-checking the filter of the earlier `findOne`. -/

/-- Progress of one in-flight `verifyOTP` request. -/
inductive Progress where
  | start
  | found (i : Nat)
  | saved
  | responded (r : Response)
deriving DecidableEq, Repr

/-- Run the request up to its next `await` (or to its response). -/
def advance (now : Nat) (email otp : String) (p : Progress) (s : Store) : Progress × Store :=
  match p with
  | .start =>
    if !truthy (some email) || !truthy (some otp) then
      (.responded (failure 400 "Please provide email, OTP, and role"), s)
    else
      match OTP.findOne email otp now s with
      | none => (.responded (failure 401 "Invalid or expired OTP"), s)
      | some i => (.found i, s)
  | .found i => (.saved, OTP.save i s)
  | .saved =>
    match User.findOne email s with
    | none =>
      (.responded (failure 404 "User not found. Please register first at /auth/register"), s)
    | some user =>
      (.responded { status := 200, success := true, token := some (generateToken user._id) }, s)
  | .responded r => (.responded r, s)

/-- The store and the in-flight requests, all for the same `(email, otp)`. -/
structure Concurrent where
  store : Store
  requests : List Progress
deriving DecidableEq, Repr

/-- The scheduler runs request `k` up to its next `await`. -/
def stepRequest (now : Nat) (email otp : String) (k : Nat) (st : Concurrent) : Concurrent :=
  match st.requests[k]? with
  | none => st
  | some p =>
    let (q, s) := advance now email otp p st.store
    { store := s, requests := st.requests.set k q }

/-- Run a schedule: the list of request numbers in the order their operations execute. -/
def runSchedule (now : Nat) (email otp : String) (sched : List Nat) (st : Concurrent) :
    Concurrent :=
  sched.foldl (fun st k => stepRequest now email otp k st) st

/-- The state in which `n` requests have arrived and none has run. -/
def launch (n : Nat) (s : Store) : Concurrent :=
  { store := s, requests := List.replicate n .start }

/-- The schedule that runs the requests one after the other, three operations each. -/
def serial (n : Nat) : List Nat :=
  (List.range n).flatMap (fun k => [k, k, k])

/-- A request has responded. -/
def Progress.isResponded : Progress → Bool
  | .responded _ => true
  | _ => false

/-- The record the issuing handlers create at time `now`:
`OTP.create({ email, otp: otpCode, expiresAt: new Date(Date.now() + 10 * 60 * 1000) })`. -/
def issued (email : String) (now : Nat) : OTP :=
  { email := email, otp := otpCode, expiresAt := now + 10 * 60 * 1000, isUsed := false }

/-- A store holding one user, created by `sendOTP` on the empty store. -/
def aliceStore : Store :=
  (handle { NODE_ENV := none, password := none } 0
    (.sendOTP .sent "Alice" (some "555-0100") (some "a@x.com")) emptyStore).2

/-- A store whose only user has the empty string as email. -/
def blankStore : Store :=
  { users := [{ _id := 0, name := "Alice", email := "", phone := "555-0100",
                password := none, profileImage := none, profileImagePublicId := none,
                emailVerificationToken := none, emailVerificationExpires := none }],
    otps := [], nextId := 1 }

/-- An `updateProfile` body that contains only `name`, set to the empty string. -/
def blankNameBody : ProfileBody :=
  { name := .str "", phone := .undefined, profileImage := .undefined,
    profileImagePublicId := .undefined }

/-- The success response of `verifyOTP` for user `u`. -/
def okResponse (u : User) : Response :=
  { status := 200, success := true, token := some (generateToken u._id) }

/-- The 401 response of `verifyOTP`. -/
def unauthorized : Response :=
  { status := 401, success := false, message := some "Invalid or expired OTP" }

/-- The user of `aliceStore`. -/
def alice : User :=
  { _id := 0, name := "Alice", email := "a@x.com", phone := "555-0100",
    password := none, profileImage := none, profileImagePublicId := none,
    emailVerificationToken := none, emailVerificationExpires := none }

/-- An `updateProfile` body that renames the user and clears the profile image. -/
def renameBody : ProfileBody :=
  { name := .str "Alicia", phone := .undefined, profileImage := .null,
    profileImagePublicId := .undefined }

/-- Invariant of the interleaved runs from a store `s` whose only matching record is at
position `i`: either no request has saved yet, the store is `s` and every request is
before its `findOne` or holds document `i`; or the store is `s` with document `i` used,
and some request is past its `save`. -/
def ConcInv (s : Store) (i : Nat) (u : User) (st : Concurrent) : Prop :=
  (st.store = s ∧
    ∀ (k : Nat) (p : Progress), st.requests[k]? = some p →
      p = Progress.start ∨ p = Progress.found i) ∨
  (st.store = OTP.save i s ∧
    (∀ (k : Nat) (p : Progress), st.requests[k]? = some p →
      p = Progress.start ∨ p = Progress.found i ∨ p = Progress.saved ∨
        p = Progress.responded (okResponse u) ∨ p = Progress.responded unauthorized) ∧
    ∃ (k : Nat) (p : Progress), st.requests[k]? = some p ∧
      (p = Progress.saved ∨ p = Progress.responded (okResponse u)))

/-- A store whose only user has the empty email and which holds an unused OTP record
for the empty email. -/
def blankOtpStore : Store :=
  { blankStore with
    otps := [{ email := "", otp := "123456", expiresAt := 600000, isUsed := false }] }

/-- The unused OTP records of an email. -/
def unusedFor (email : String) (s : Store) : List OTP :=
  s.otps.filter (fun r => r.email == email && r.isUsed == false)


/-! ## Lemmas on the list helpers -/

theorem findIndex_eq_none {α : Type} (p : α → Bool) (l : List α)
    (h : ∀ a ∈ l, p a = false) : findIndex p l = none := by
  induction l with
  | nil => rfl
  | cons a as ih =>
    have ha : p a = false := h a (List.mem_cons_self a as)
    have has : findIndex p as = none := ih (fun b hb => h b (List.mem_cons_of_mem a hb))
    simp [findIndex, ha, has]

theorem findIndex_some_mem {α : Type} (p : α → Bool) (l : List α) (i : Nat)
    (h : findIndex p l = some i) : ∃ a, l[i]? = some a ∧ p a = true := by
  induction l generalizing i with
  | nil => simp [findIndex] at h
  | cons a as ih =>
    by_cases ha : p a = true
    · simp [findIndex, ha] at h
      subst h
      exact ⟨a, by simp, ha⟩
    · simp only [findIndex, ha] at h
      cases hj : findIndex p as with
      | none => simp [hj] at h
      | some j =>
        simp [hj] at h
        subst h
        obtain ⟨b, hb, hpb⟩ := ih j hj
        exact ⟨b, by simpa using hb, hpb⟩

theorem modifyAt_length {α : Type} (f : α → α) (i : Nat) (l : List α) :
    (modifyAt f i l).length = l.length := by
  induction l generalizing i with
  | nil => cases i <;> rfl
  | cons a as ih =>
    cases i with
    | zero => rfl
    | succ n => simp [modifyAt, ih]

theorem modifyAt_getElem?_self {α : Type} (f : α → α) (i : Nat) (l : List α) :
    (modifyAt f i l)[i]? = (l[i]?).map f := by
  induction l generalizing i with
  | nil => cases i <;> rfl
  | cons a as ih =>
    cases i with
    | zero => simp [modifyAt]
    | succ n => simpa [modifyAt] using ih n

theorem modifyAt_getElem?_ne {α : Type} (f : α → α) (i j : Nat) (l : List α) (h : j ≠ i) :
    (modifyAt f i l)[j]? = l[j]? := by
  induction l generalizing i j with
  | nil => cases i <;> rfl
  | cons a as ih =>
    cases i with
    | zero =>
      cases j with
      | zero => exact absurd rfl h
      | succ m => simp [modifyAt]
    | succ n =>
      cases j with
      | zero => simp [modifyAt]
      | succ m => simpa [modifyAt] using ih n m (by omega)

theorem modifyAt_map_eq {α β : Type} (f : α → α) (g : α → β) (i : Nat) (l : List α)
    (h : ∀ a, g (f a) = g a) : (modifyAt f i l).map g = l.map g := by
  induction l generalizing i with
  | nil => cases i <;> rfl
  | cons a as ih =>
    cases i with
    | zero => simp [modifyAt, h]
    | succ n => simp [modifyAt, ih]

theorem filter_modifyAt_length_le {α : Type} (q : α → Bool) (f : α → α) (i : Nat) (l : List α)
    (h : ∀ a, q (f a) = false) :
    ((modifyAt f i l).filter q).length ≤ (l.filter q).length := by
  induction l generalizing i with
  | nil => cases i <;> simp [modifyAt]
  | cons a as ih =>
    cases i with
    | zero =>
      by_cases hqa : q a = true <;> simp [modifyAt, List.filter_cons, h, hqa]
    | succ n =>
      simp only [modifyAt, List.filter_cons]
      split
      · simpa using ih n
      · exact ih n

theorem filter_modifyAt_eq_nil {α : Type} (p q : α → Bool) (f : α → α) (i : Nat) (l : List α)
    (hfind : findIndex p l = some i) (hpq : ∀ a, p a = true → q a = true)
    (hone : (l.filter q).length ≤ 1) (hf : ∀ a, q (f a) = false) :
    (modifyAt f i l).filter q = [] := by
  induction l generalizing i with
  | nil => simp [findIndex] at hfind
  | cons a as ih =>
    by_cases ha : p a = true
    · simp [findIndex, ha] at hfind
      subst hfind
      have hqa : q a = true := hpq a ha
      simp only [List.filter_cons, hqa, if_true, List.length_cons] at hone
      have hnil : as.filter q = [] := List.length_eq_zero.mp (by omega)
      simp [modifyAt, List.filter_cons, hf, hnil]
    · simp only [findIndex, ha] at hfind
      cases hj : findIndex p as with
      | none => simp [hj] at hfind
      | some j =>
        simp [hj] at hfind
        subst hfind
        obtain ⟨b, hb, hpb⟩ := findIndex_some_mem p as j hj
        have hbmem : b ∈ as.filter q :=
          List.mem_filter.mpr ⟨List.mem_iff_getElem?.mpr ⟨j, hb⟩, hpq b hpb⟩
        by_cases hqa : q a = true
        · simp only [List.filter_cons, hqa, if_true, List.length_cons] at hone
          have hnil : as.filter q = [] := List.length_eq_zero.mp (by omega)
          rw [hnil] at hbmem
          simp at hbmem
        · have hone2 : (as.filter q).length ≤ 1 := by
            simpa [List.filter_cons, hqa] using hone
          simp [modifyAt, List.filter_cons, hqa, ih j hj hone2]


/-! ## Lemmas on the store operations -/

theorem unused_filter_issue (e E : String) (rec : OTP) (l : List OTP)
    (hrec : rec.email = e) (hun : rec.isUsed = false) :
    (l.filter (fun r => !(r.email == e && r.isUsed == false)) ++ [rec]).filter
        (fun r => r.email == E && r.isUsed == false)
      = if E = e then [rec] else l.filter (fun r => r.email == E && r.isUsed == false) := by
  rw [List.filter_append, List.filter_filter]
  by_cases hE : E = e
  · subst hE
    have h1 : l.filter (fun a => (a.email == E && a.isUsed == false) &&
        !(a.email == E && a.isUsed == false)) = [] := by
      rw [List.filter_eq_nil_iff]
      intro a _
      simp
    rw [h1]
    simp [List.filter_cons, hrec, hun]
  · have h1 : l.filter (fun a => (a.email == E && a.isUsed == false) &&
        !(a.email == e && a.isUsed == false))
        = l.filter (fun r => r.email == E && r.isUsed == false) := by
      apply List.filter_congr
      intro a _
      by_cases hae : a.email = E
      · have : a.email ≠ e := fun h => hE (hae ▸ h)
        simp [hae, this, hE]
      · simp [hae]
    have h2 : (rec.email == E) = false := by
      simp [hrec]
      exact fun h => hE h.symm
    rw [h1]
    simp [List.filter_cons, h2, hE]

theorem unusedFor_issue (e E : String) (now : Nat) (s : Store) :
    unusedFor E (OTP.create e otpCode (now + 10 * 60 * 1000) (OTP.deleteMany e s))
      = if E = e then [issued e now] else unusedFor E s := by
  unfold unusedFor OTP.create OTP.deleteMany issued
  exact unused_filter_issue e E _ s.otps rfl rfl

theorem unusedFor_issue_create (e E name p : String) (now : Nat) (s : Store) :
    unusedFor E (OTP.create e otpCode (now + 10 * 60 * 1000)
        (User.create name e p none none none (OTP.deleteMany e s)).2)
      = if E = e then [issued e now] else unusedFor E s := by
  unfold unusedFor OTP.create OTP.deleteMany User.create issued
  exact unused_filter_issue e E _ s.otps rfl rfl

theorem unusedFor_save_le (E : String) (i : Nat) (s : Store) :
    (unusedFor E (OTP.save i s)).length ≤ (unusedFor E s).length := by
  unfold unusedFor OTP.save
  exact filter_modifyAt_length_le _ _ i s.otps (by intro a; simp)

theorem truthy_some (e : String) : truthy (some e) = true ↔ e ≠ "" := by
  simp [truthy]

theorem findOne_some_iff (E : String) (s : Store) :
    (∃ u, User.findOne E s = some u) ↔ ∃ u ∈ s.users, u.email = E := by
  unfold User.findOne
  constructor
  · rintro ⟨u, hu⟩
    exact ⟨u, List.mem_of_find?_eq_some hu, by simpa using List.find?_some hu⟩
  · rintro ⟨u, hu, hE⟩
    cases h : s.users.find? (fun u => u.email == E) with
    | none =>
      rw [List.find?_eq_none] at h
      exact absurd (by simpa using hE) (h u hu)
    | some v => exact ⟨v, rfl⟩

theorem findOne_none_iff (E : String) (s : Store) :
    User.findOne E s = none ↔ ∀ u ∈ s.users, u.email ≠ E := by
  unfold User.findOne
  rw [List.find?_eq_none]
  simp

/-- Effect of one request on the OTP collection, per email. -/
theorem handle_unused_le (env : Env) (now : Nat) (c : Call) (s : Store)
    (h : ∀ E, (unusedFor E s).length ≤ 1) (E : String) :
    (unusedFor E (handle env now c s).2).length ≤ 1 := by
  cases c with
  | register vt mail name email phone =>
    simp only [handle, register]
    split
    · exact h E
    · split
      · exact h E
      · cases mail <;> exact h E
  | login mail email =>
    simp only [handle, login]
    split
    · exact h E
    · split
      · exact h E
      · split
        · exact h E
        · have key := unusedFor_issue ‹String› E now s
          have hle : (unusedFor E (OTP.create ‹String› otpCode (now + 10 * 60 * 1000)
              (OTP.deleteMany ‹String› s))).length ≤ 1 := by
            rw [key]; split
            · simp
            · exact h E
          cases mail with
          | sent => exact hle
          | threw m =>
            simp only
            split <;> exact hle
  | sendOTP mail name phone email =>
    simp only [handle, sendOTP]
    split
    · split
      · exact h E
      · split
        · exact h E
        · rename_i e p _ _ _
          have key := unusedFor_issue_create e E name p now s
          have hle : (unusedFor E (OTP.create e otpCode (now + 10 * 60 * 1000)
              (User.create name e p none none none (OTP.deleteMany e s)).2)).length ≤ 1 := by
            rw [key]; split
            · simp
            · exact h E
          cases mail with
          | sent => exact hle
          | threw m =>
            simp only
            split <;> exact hle
    · exact h E
  | verifyOTP email otp =>
    simp only [handle, verifyOTP]
    split
    · split
      · exact h E
      · split
        · exact h E
        · have hle := Nat.le_trans (unusedFor_save_le E ‹Nat› s) (h E)
          split <;> exact hle
    · exact h E
  | getMe uid => exact h E
  | updateProfile uid body =>
    simp only [handle, updateProfile]
    split
    · exact h E
    · exact h E


/-! ## Invariants of reachable stores -/

theorem applyUpdate_email (body : ProfileBody) (u : User) : (applyUpdate body u).email = u.email := by
  unfold applyUpdate
  simp only
  split <;> split <;> split <;> split <;> rfl

/-- A request leaves the emails of the stored users as they are, or appends one
user whose email no stored user has. -/
theorem handle_users (env : Env) (now : Nat) (c : Call) (s : Store) :
    (handle env now c s).2.users.map (fun u => u.email) = s.users.map (fun u => u.email) ∨
    ∃ u, (handle env now c s).2.users = s.users ++ [u] ∧ ∀ v ∈ s.users, v.email ≠ u.email := by
  cases c with
  | register vt mail name email phone =>
    simp only [handle, register]
    split
    · exact Or.inl rfl
    · rename_i hnone
      split
      · exact Or.inl rfl
      · rename_i pw _
        refine Or.inr ⟨(User.create name email phone (some pw) (some vt)
          (some (now + 24 * 60 * 60 * 1000)) s).1, ?_, ?_⟩
        · cases mail <;> rfl
        · exact (findOne_none_iff email s).mp hnone
  | login mail email =>
    simp only [handle, login]
    split
    · exact Or.inl rfl
    · split
      · exact Or.inl rfl
      · split
        · exact Or.inl rfl
        · cases mail with
          | sent => exact Or.inl rfl
          | threw m =>
            simp only
            split <;> exact Or.inl rfl
  | sendOTP mail name phone email =>
    simp only [handle, sendOTP]
    split
    · split
      · exact Or.inl rfl
      · split
        · exact Or.inl rfl
        · rename_i e p _ _ hnone
          refine Or.inr ⟨(User.create name e p none none none (OTP.deleteMany e s)).1, ?_, ?_⟩
          · cases mail with
            | sent => rfl
            | threw m =>
              simp only
              split <;> rfl
          · exact (findOne_none_iff e s).mp hnone
    · exact Or.inl rfl
  | verifyOTP email otp =>
    simp only [handle, verifyOTP]
    split
    · split
      · exact Or.inl rfl
      · split
        · exact Or.inl rfl
        · split <;> exact Or.inl rfl
    · exact Or.inl rfl
  | getMe uid => exact Or.inl rfl
  | updateProfile uid body =>
    simp only [handle, updateProfile]
    split
    · exact Or.inl rfl
    · exact Or.inl (modifyAt_map_eq _ _ _ _ (applyUpdate_email body))

theorem reachable_emails_nodup (s : Store) (h : Reachable s) :
    (s.users.map (fun u => u.email)).Nodup := by
  induction h with
  | empty => simp [emptyStore]
  | step env now c _ ih =>
    rcases handle_users env now c _ with heq | ⟨u, hu, hfresh⟩
    · rw [heq]; exact ih
    · rw [hu, List.map_append, List.nodup_append]
      refine ⟨ih, by simp, ?_⟩
      intro x hx hx2
      simp only [List.map_cons, List.map_nil, List.mem_singleton] at hx2
      obtain ⟨v, hv, hve⟩ := List.mem_map.mp hx
      exact hfresh v hv (hve.trans hx2)

theorem reachable_unused_le (s : Store) (h : Reachable s) (E : String) :
    (unusedFor E s).length ≤ 1 := by
  induction h generalizing E with
  | empty => simp [emptyStore, unusedFor]
  | step env now c _ ih => exact handle_unused_le env now c _ ih E


/-! ## Registration -/

theorem aliceStore_eq : aliceStore =
    { users := [{ _id := 0, name := "Alice", email := "a@x.com", phone := "555-0100",
                  password := none, profileImage := none, profileImagePublicId := none,
                  emailVerificationToken := none, emailVerificationExpires := none }],
      otps := [{ email := "a@x.com", otp := "123456", expiresAt := 600000, isUsed := false }],
      nextId := 1 } := by
  decide

theorem aliceStore_reachable : Reachable aliceStore :=
  Reachable.step _ _ _ Reachable.empty

/-- C5. When the store already holds a User with email `E`, `register` responds 400 with
`success = false` and message 'User already exists', and the store is unchanged. -/
theorem register_conflict (env : Env) (now : Nat) (vt : String) (mail : Mail)
    (name E phone : String) (s : Store) (h : ∃ u ∈ s.users, u.email = E) :
    register env now vt mail name E phone s =
      ({ status := 400, success := false, message := some "User already exists" }, s) := by
  obtain ⟨u, hu⟩ := (findOne_some_iff E s).mpr h
  simp [register, hu, failure]

theorem register_conflict_witness :
    (∃ u ∈ aliceStore.users, u.email = "a@x.com") ∧
    register { NODE_ENV := none, password := none } 5 "f00d" Mail.sent "Alice" "a@x.com" "555-0100"
        aliceStore =
      ({ status := 400, success := false, message := some "User already exists" }, aliceStore) :=
  ⟨by decide, register_conflict _ _ _ _ _ _ _ _ (by decide)⟩

/-- C4. On the empty store, `register("Alice", "a@x.com", "555-0100")` reads the unbound
identifier `password` while building the document for `User.create`; the handler's
catch block answers 500 and no User is created, whatever the time, the verification
token, the outcome of the verification e-mail and `NODE_ENV`. -/
theorem register_new_email_responds_500 (nodeEnv : Option String) (now : Nat) (vt : String)
    (mail : Mail) :
    register { NODE_ENV := nodeEnv, password := none } now vt mail "Alice" "a@x.com" "555-0100"
        emptyStore =
      ({ status := 500, success := false, message := some "password is not defined" },
        emptyStore) := by
  rfl


/-- With no binding for `password`, `register` for a new email answers 500 and leaves the
store as it was. -/
theorem register_unbound_password (env : Env) (now : Nat) (vt : String) (mail : Mail)
    (name E phone : String) (s : Store) (hpw : env.password = none)
    (hnew : ∀ u ∈ s.users, u.email ≠ E) :
    register env now vt mail name E phone s =
      ({ status := 500, success := false, message := some "password is not defined" }, s) := by
  have hnone := (findOne_none_iff E s).mpr hnew
  simp [register, hnone, hpw, failure]

/-- Were `password` bound, `register` for a new email would append one User with the
given name, email and phone and answer 201 with a token for its id and its public fields,
whether or not the verification e-mail is sent. -/
theorem register_bound_password (env : Env) (now : Nat) (vt : String) (mail : Mail)
    (name E phone pw : String) (s : Store) (hpw : env.password = some pw)
    (hnew : ∀ u ∈ s.users, u.email ≠ E) :
    ∃ u : User, u.name = name ∧ u.email = E ∧ u.phone = phone ∧
      register env now vt mail name E phone s =
        ({ status := 201, success := true, token := some (generateToken u._id),
           data := some (.registered u._id name E phone) },
         { s with users := s.users ++ [u], nextId := s.nextId + 1 }) := by
  have hnone := (findOne_none_iff E s).mpr hnew
  refine ⟨(User.create name E phone (some pw) (some vt) (some (now + 24 * 60 * 60 * 1000)) s).1,
    rfl, rfl, rfl, ?_⟩
  cases mail <;> simp [register, hnone, hpw, User.create]

/-! ## Email uniqueness -/

/-- C9. In every store reachable from the empty store by requests to the six handlers no
two User records have the same email; and every request from such a store either leaves
the emails of the stored users as they are, or appends one User whose email no stored
User has. -/
theorem email_unique (s : Store) (h : Reachable s) :
    (s.users.map (fun u => u.email)).Nodup ∧
    ∀ (env : Env) (now : Nat) (c : Call),
      (handle env now c s).2.users.map (fun u => u.email) = s.users.map (fun u => u.email) ∨
      ∃ u, (handle env now c s).2.users = s.users ++ [u] ∧ ∀ v ∈ s.users, v.email ≠ u.email :=
  ⟨reachable_emails_nodup s h, fun env now c => handle_users env now c s⟩

theorem email_unique_witness :
    Reachable aliceStore ∧
    (aliceStore.users.map (fun u => u.email)).Nodup ∧
    ∀ (env : Env) (now : Nat) (c : Call),
      (handle env now c aliceStore).2.users.map (fun u => u.email)
        = aliceStore.users.map (fun u => u.email) ∨
      ∃ u, (handle env now c aliceStore).2.users = aliceStore.users ++ [u] ∧
        ∀ v ∈ aliceStore.users, v.email ≠ u.email :=
  ⟨aliceStore_reachable, email_unique aliceStore aliceStore_reachable⟩

/-! ## OTP issuance -/

theorem login_issues (env : Env) (now : Nat) (mail : Mail) (E : String) (s : Store)
    (hE : E ≠ "") (hu : ∃ u ∈ s.users, u.email = E) :
    (login env now mail (some E) s).2
      = OTP.create E otpCode (now + 10 * 60 * 1000) (OTP.deleteMany E s) := by
  obtain ⟨u, hu⟩ := (findOne_some_iff E s).mpr hu
  cases mail with
  | sent => simp [login, truthy, hE, hu]
  | threw m =>
    have ht : (E != "") = true := by simpa using hE
    simp only [login, truthy, hu, ht, Bool.not_true, Bool.false_eq_true, if_false]
    split <;> rfl

theorem sendOTP_issues (env : Env) (now : Nat) (mail : Mail) (name phone E : String) (s : Store)
    (hE : E ≠ "") (hp : phone ≠ "") (hnew : ∀ u ∈ s.users, u.email ≠ E) :
    (sendOTP env now mail name (some phone) (some E) s).2
      = OTP.create E otpCode (now + 10 * 60 * 1000)
          (User.create name E phone none none none (OTP.deleteMany E s)).2 := by
  have hnone := (findOne_none_iff E s).mpr hnew
  cases mail with
  | sent => simp [sendOTP, truthy, hE, hp, hnone]
  | threw m =>
    have ht : (E != "") = true := by simpa using hE
    have htp : (phone != "") = true := by simpa using hp
    simp only [sendOTP, truthy, hnone, ht, htp, Bool.not_true, Bool.or_self,
      Bool.false_eq_true, if_false]
    split <;> rfl

theorem login_users (env : Env) (now : Nat) (mail : Mail) (email : Option String) (s : Store) :
    (login env now mail email s).2.users = s.users := by
  unfold login
  split
  · rfl
  · split
    · rfl
    · split
      · rfl
      · cases mail with
        | sent => rfl
        | threw m =>
          simp only
          split <;> rfl

theorem sendOTP_issues_users (env : Env) (now : Nat) (mail : Mail) (name phone E : String)
    (s : Store) (hE : E ≠ "") (hp : phone ≠ "") (hnew : ∀ u ∈ s.users, u.email ≠ E) :
    (sendOTP env now mail name (some phone) (some E) s).2.users
      = s.users ++ [{ _id := s.nextId, name := name, email := E, phone := phone,
                      password := none, profileImage := none, profileImagePublicId := none,
                      emailVerificationToken := none, emailVerificationExpires := none }] := by
  rw [sendOTP_issues env now mail name phone E s hE hp hnew]
  rfl

/-- C3. After `login(E)` for an existing User, or `sendOTP` for a new `E` with a phone, has
issued an OTP, the unused OTP records of `E` are exactly the record just created; this
also holds for the second of two requests in succession; and in every reachable store
each email has at most one unused OTP record. -/
theorem latest_request_wins (s : Store) (E : String) (hE : E ≠ "") :
    (∀ env now mail, (∃ u ∈ s.users, u.email = E) →
      unusedFor E (login env now mail (some E) s).2 = [issued E now]) ∧
    (∀ env now mail name phone, phone ≠ "" → (∀ u ∈ s.users, u.email ≠ E) →
      unusedFor E (sendOTP env now mail name (some phone) (some E) s).2 = [issued E now]) ∧
    (∀ env₁ t₁ m₁ env₂ t₂ m₂, (∃ u ∈ s.users, u.email = E) →
      unusedFor E (login env₂ t₂ m₂ (some E) (login env₁ t₁ m₁ (some E) s).2).2
        = [issued E t₂]) ∧
    (∀ env₁ t₁ m₁ name phone env₂ t₂ m₂, phone ≠ "" → (∀ u ∈ s.users, u.email ≠ E) →
      unusedFor E (login env₂ t₂ m₂ (some E)
          (sendOTP env₁ t₁ m₁ name (some phone) (some E) s).2).2
        = [issued E t₂]) ∧
    (Reachable s → ∀ E', (unusedFor E' s).length ≤ 1) := by
  have hlogin : ∀ (s : Store) env now mail, (∃ u ∈ s.users, u.email = E) →
      unusedFor E (login env now mail (some E) s).2 = [issued E now] := by
    intro s env now mail hu
    rw [login_issues env now mail E s hE hu, unusedFor_issue]
    simp
  refine ⟨hlogin s, ?_, ?_, ?_, fun h E' => reachable_unused_le s h E'⟩
  · intro env now mail name phone hp hnew
    rw [sendOTP_issues env now mail name phone E s hE hp hnew, unusedFor_issue_create]
    simp
  · intro env₁ t₁ m₁ env₂ t₂ m₂ hu
    apply hlogin
    rw [login_users]
    exact hu
  · intro env₁ t₁ m₁ name phone env₂ t₂ m₂ hp hnew
    apply hlogin
    rw [sendOTP_issues_users env₁ t₁ m₁ name phone E s hE hp hnew]
    exact ⟨_, List.mem_append_right _ (List.mem_singleton_self _), rfl⟩

theorem latest_request_wins_witness :
    ("a@x.com" : String) ≠ "" ∧
    (∃ u ∈ aliceStore.users, u.email = "a@x.com") ∧
    unusedFor "a@x.com"
        (login { NODE_ENV := none, password := none } 7 Mail.sent (some "a@x.com") aliceStore).2
      = [issued "a@x.com" 7] ∧
    ∀ E', (unusedFor E' aliceStore).length ≤ 1 :=
  ⟨by decide, by decide,
    (latest_request_wins aliceStore "a@x.com" (by decide)).1 _ 7 Mail.sent (by decide),
    (latest_request_wins aliceStore "a@x.com" (by decide)).2.2.2.2 aliceStore_reachable⟩


/-! ## OTP verification -/

theorem verifyOTP_invalid (now : Nat) (E c : String) (s : Store)
    (h : E = "" ∨ c = "") :
    verifyOTP now (some E) (some c) s =
      ({ status := 400, success := false,
         message := some "Please provide email, OTP, and role" }, s) := by
  rcases h with h | h <;> simp [verifyOTP, truthy, h, failure]

theorem verifyOTP_unauthorized (now : Nat) (E c : String) (s : Store)
    (hE : E ≠ "") (hc : c ≠ "") (h : OTP.findOne E c now s = none) :
    verifyOTP now (some E) (some c) s =
      ({ status := 401, success := false, message := some "Invalid or expired OTP" }, s) := by
  simp [verifyOTP, truthy, hE, hc, h, failure]

theorem verifyOTP_ok (now : Nat) (E c : String) (s : Store) (i : Nat) (u : User)
    (hE : E ≠ "") (hc : c ≠ "") (h : OTP.findOne E c now s = some i)
    (hu : User.findOne E s = some u) :
    verifyOTP now (some E) (some c) s =
      ({ status := 200, success := true, token := some (generateToken u._id) },
        OTP.save i s) := by
  have hu1 : User.findOne E (OTP.save i s) = some u := hu
  simp [verifyOTP, truthy, hE, hc, h, hu1]

theorem verifyOTP_no_user (now : Nat) (E c : String) (s : Store) (i : Nat)
    (hE : E ≠ "") (hc : c ≠ "") (h : OTP.findOne E c now s = some i)
    (hu : User.findOne E s = none) :
    verifyOTP now (some E) (some c) s =
      ({ status := 404, success := false,
         message := some "User not found. Please register first at /auth/register" },
        OTP.save i s) := by
  have hu1 : User.findOne E (OTP.save i s) = none := hu
  simp [verifyOTP, truthy, hE, hc, h, hu1, failure]

/-- A 200 response of `verifyOTP` comes from the path that found a record, saved it as
used and found the User. -/
theorem verifyOTP_status_200 (now : Nat) (E c : String) (s : Store)
    (h : (verifyOTP now (some E) (some c) s).1.status = 200) :
    E ≠ "" ∧ c ≠ "" ∧ ∃ i u, OTP.findOne E c now s = some i ∧ User.findOne E s = some u ∧
      verifyOTP now (some E) (some c) s =
        ({ status := 200, success := true, token := some (generateToken u._id) },
          OTP.save i s) := by
  by_cases hE : E = ""
  · rw [verifyOTP_invalid now E c s (Or.inl hE)] at h
    simp at h
  by_cases hc : c = ""
  · rw [verifyOTP_invalid now E c s (Or.inr hc)] at h
    simp at h
  cases hf : OTP.findOne E c now s with
  | none =>
    rw [verifyOTP_unauthorized now E c s hE hc hf] at h
    simp at h
  | some i =>
    cases hu : User.findOne E s with
    | none =>
      rw [verifyOTP_no_user now E c s i hE hc hf hu] at h
      simp at h
    | some u => exact ⟨hE, hc, i, u, rfl, rfl, verifyOTP_ok now E c s i u hE hc hf hu⟩

theorem matches_unused (E c : String) (now : Nat) (r : OTP)
    (h : OTP.matches E c now r = true) : (r.email == E && r.isUsed == false) = true := by
  simp only [OTP.matches, Bool.and_eq_true] at h
  simp [h.1.1.1, h.1.2]

/-- Once the only unused record of `E` is saved as used, no lookup for `E` matches. -/
theorem findOne_after_save (E c c' : String) (now now' : Nat) (s : Store) (i : Nat)
    (hone : (unusedFor E s).length ≤ 1) (h : OTP.findOne E c now s = some i) :
    OTP.findOne E c' now' (OTP.save i s) = none := by
  have hnil : unusedFor E (OTP.save i s) = [] := by
    unfold unusedFor OTP.save
    exact filter_modifyAt_eq_nil (OTP.matches E c now) _ _ i s.otps h
      (matches_unused E c now) hone (by intro a; simp)
  unfold OTP.findOne
  apply findIndex_eq_none
  intro r hr
  unfold unusedFor at hnil
  rw [List.filter_eq_nil_iff] at hnil
  have hq := hnil r hr
  cases hm : OTP.matches E c' now' r with
  | false => rfl
  | true => exact absurd (matches_unused E c' now' r hm) hq

/-- C1. In every reachable store, if `verifyOTP(E, c)` at time `t` responds 200 with a token
(the matched record is saved with `isUsed = true`), then `verifyOTP(E, c)` run on the
resulting store at any time `t' ≥ t` responds 401 with `success = false` and message
'Invalid or expired OTP'. -/
theorem verifyOTP_single_use (s : Store) (h : Reachable s) (E c : String) (t t' : Nat)
    (_ht : t ≤ t') (hok : (verifyOTP t (some E) (some c) s).1.status = 200) :
    (∃ tok, (verifyOTP t (some E) (some c) s).1.token = some tok) ∧
    (∃ i r, OTP.findOne E c t s = some i ∧ s.otps[i]? = some r ∧
      (verifyOTP t (some E) (some c) s).2.otps[i]? = some { r with isUsed := true }) ∧
    verifyOTP t' (some E) (some c) (verifyOTP t (some E) (some c) s).2 =
      ({ status := 401, success := false, message := some "Invalid or expired OTP" },
        (verifyOTP t (some E) (some c) s).2) := by
  obtain ⟨hE, hc, i, u, hf, _, heq⟩ := verifyOTP_status_200 t E c s hok
  rw [heq]
  refine ⟨⟨_, rfl⟩, ?_, ?_⟩
  · obtain ⟨r, hr, _⟩ := findIndex_some_mem _ _ _ hf
    refine ⟨i, r, hf, hr, ?_⟩
    simp only [OTP.save]
    rw [modifyAt_getElem?_self, hr]
    rfl
  · exact verifyOTP_unauthorized t' E c _ hE hc
      (findOne_after_save E c c t t' s i (reachable_unused_le s h E) hf)

theorem verifyOTP_single_use_witness :
    Reachable aliceStore ∧ (5 : Nat) ≤ 9 ∧
    (verifyOTP 5 (some "a@x.com") (some "123456") aliceStore).1.status = 200 ∧
    verifyOTP 9 (some "a@x.com") (some "123456")
        (verifyOTP 5 (some "a@x.com") (some "123456") aliceStore).2 =
      ({ status := 401, success := false, message := some "Invalid or expired OTP" },
        (verifyOTP 5 (some "a@x.com") (some "123456") aliceStore).2) :=
  ⟨aliceStore_reachable, by decide, by decide,
    (verifyOTP_single_use aliceStore aliceStore_reachable "a@x.com" "123456" 5 9
      (by decide) (by decide)).2.2⟩


theorem findOne_none_of_expired (E c : String) (now : Nat) (s : Store)
    (hexp : ∀ r ∈ s.otps, r.email = E → r.otp = c → r.isUsed = false → r.expiresAt ≤ now) :
    OTP.findOne E c now s = none := by
  unfold OTP.findOne
  apply findIndex_eq_none
  intro r hr
  cases hm : OTP.matches E c now r with
  | false => rfl
  | true =>
    simp only [OTP.matches, Bool.and_eq_true, beq_iff_eq, decide_eq_true_eq] at hm
    have := hexp r hr hm.1.1.1 hm.1.1.2 hm.1.2
    omega

theorem expired_after_issue (E : String) (t : Nat) (s : Store)
    (h : unusedFor E s = [issued E t]) :
    ∀ r ∈ s.otps, r.email = E → r.otp = otpCode → r.isUsed = false →
      r.expiresAt ≤ t + 10 * 60 * 1000 + 1000 := by
  intro r hr hE _ hun
  have hmem : r ∈ unusedFor E s := by
    unfold unusedFor
    exact List.mem_filter.mpr ⟨hr, by simp [hE, hun]⟩
  rw [h, List.mem_singleton] at hmem
  subst hmem
  simp [issued]

/-- C2, as stated, fails: with the empty email the condition on the OTP records holds on
the empty store, and `verifyOTP` answers 400 from its input guard, not 401. -/
theorem verifyOTP_expiry_counterexample :
    (∀ r ∈ emptyStore.otps, r.email = "" → r.otp = "123456" → r.isUsed = false →
      r.expiresAt ≤ 0) ∧
    verifyOTP 0 (some "") (some "123456") emptyStore =
      ({ status := 400, success := false,
         message := some "Please provide email, OTP, and role" }, emptyStore) ∧
    (verifyOTP 0 (some "") (some "123456") emptyStore).1.status ≠ 401 := by
  decide

/-- C2, amended. For non-empty `E` and `c`: if every OTP record with email `E`, otp `c` and
`isUsed = false` has `expiresAt ≤ now`, then `verifyOTP(E, c)` at `now` responds 401 with
`success = false` and leaves the store unchanged; with an empty `E` or `c` the response is
400 with `success = false`, the store again unchanged. In particular the code issued by
`login` or `sendOTP` at time `t` and verified at `t` + 10 minutes + 1 second is rejected
with 401. -/
theorem verifyOTP_expiry :
    (∀ (s : Store) (E c : String) (now : Nat), E ≠ "" → c ≠ "" →
      (∀ r ∈ s.otps, r.email = E → r.otp = c → r.isUsed = false → r.expiresAt ≤ now) →
      verifyOTP now (some E) (some c) s =
        ({ status := 401, success := false, message := some "Invalid or expired OTP" }, s)) ∧
    (∀ (s : Store) (E c : String) (now : Nat), E = "" ∨ c = "" →
      verifyOTP now (some E) (some c) s =
        ({ status := 400, success := false,
           message := some "Please provide email, OTP, and role" }, s)) ∧
    (∀ (s : Store) (E : String) (env : Env) (t : Nat) (mail : Mail), E ≠ "" →
      (∃ u ∈ s.users, u.email = E) →
      verifyOTP (t + 10 * 60 * 1000 + 1000) (some E) (some otpCode)
          (login env t mail (some E) s).2 =
        ({ status := 401, success := false, message := some "Invalid or expired OTP" },
          (login env t mail (some E) s).2)) ∧
    (∀ (s : Store) (E name phone : String) (env : Env) (t : Nat) (mail : Mail), E ≠ "" →
      phone ≠ "" → (∀ u ∈ s.users, u.email ≠ E) →
      verifyOTP (t + 10 * 60 * 1000 + 1000) (some E) (some otpCode)
          (sendOTP env t mail name (some phone) (some E) s).2 =
        ({ status := 401, success := false, message := some "Invalid or expired OTP" },
          (sendOTP env t mail name (some phone) (some E) s).2)) := by
  have hcode : otpCode ≠ "" := by decide
  refine ⟨?_, ?_, ?_, ?_⟩
  · intro s E c now hE hc hexp
    exact verifyOTP_unauthorized now E c s hE hc (findOne_none_of_expired E c now s hexp)
  · intro s E c now h
    exact verifyOTP_invalid now E c s h
  · intro s E env t mail hE hu
    apply verifyOTP_unauthorized _ E otpCode _ hE hcode
    apply findOne_none_of_expired
    apply expired_after_issue
    rw [login_issues env t mail E s hE hu, unusedFor_issue]
    simp
  · intro s E name phone env t mail hE hp hnew
    apply verifyOTP_unauthorized _ E otpCode _ hE hcode
    apply findOne_none_of_expired
    apply expired_after_issue
    rw [sendOTP_issues env t mail name phone E s hE hp hnew, unusedFor_issue_create]
    simp

theorem verifyOTP_expiry_witness :
    ("a@x.com" : String) ≠ "" ∧ ("123456" : String) ≠ "" ∧
    (∀ r ∈ aliceStore.otps, r.email = "a@x.com" → r.otp = "123456" → r.isUsed = false →
      r.expiresAt ≤ 601000) ∧
    verifyOTP 601000 (some "a@x.com") (some "123456") aliceStore =
      ({ status := 401, success := false, message := some "Invalid or expired OTP" },
        aliceStore) :=
  ⟨by decide, by decide, by decide,
    verifyOTP_expiry.1 aliceStore "a@x.com" "123456" 601000 (by decide) (by decide)
      (by decide)⟩


/-! ## Login -/

theorem login_sent (env : Env) (now : Nat) (E : String) (s : Store)
    (hE : E ≠ "") (hu : ∃ u ∈ s.users, u.email = E) :
    (login env now Mail.sent (some E) s).1 =
      { status := 200, success := true, isExist := some true,
        message := some "OTP sent to your email" } := by
  obtain ⟨u, hu⟩ := (findOne_some_iff E s).mpr hu
  simp [login, truthy, hE, hu]

theorem login_threw_exposed (env : Env) (now : Nat) (E m : String) (s : Store)
    (hE : E ≠ "") (hu : ∃ u ∈ s.users, u.email = E)
    (h : m = "EMAIL_NOT_CONFIGURED" ∨ env.NODE_ENV ≠ some "production") :
    (login env now (Mail.threw m) (some E) s).1 =
      { status := 200, success := true,
        message := some "OTP generated (email not configured - check console)",
        isExist := some true, otp := some otpCode, isDevelopment := some true } := by
  obtain ⟨u, hu⟩ := (findOne_some_iff E s).mpr hu
  have hcond : (m == "EMAIL_NOT_CONFIGURED" || env.NODE_ENV != some "production") = true := by
    rcases h with h | h <;> simp [h]
  simp [login, truthy, hE, hu, hcond]

theorem login_threw_production (env : Env) (now : Nat) (E m : String) (s : Store)
    (hE : E ≠ "") (hu : ∃ u ∈ s.users, u.email = E)
    (hm : m ≠ "EMAIL_NOT_CONFIGURED") (hprod : env.NODE_ENV = some "production") :
    (login env now (Mail.threw m) (some E) s).1 =
      { status := 500, success := false,
        message := some "Failed to send OTP email. Please contact support." } := by
  obtain ⟨u, hu⟩ := (findOne_some_iff E s).mpr hu
  simp [login, truthy, hE, hu, hm, hprod, failure]

/-- With the empty string as email `login` answers 400 from its input guard, whatever
the store holds. -/
theorem login_invalid (env : Env) (now : Nat) (mail : Mail) (s : Store) :
    login env now mail (some "") s =
      ({ status := 400, success := false,
         message := some "Please provide email and password" }, s) := by
  simp [login, truthy, failure]

/-- The delivery outcomes of `login(E)` for a non-empty `E` that some stored User has, from
any store: 200 without `otp` when the e-mail is sent, 200 with the raw code when sending
throws and the error is EMAIL_NOT_CONFIGURED or `NODE_ENV` is not production, 500
otherwise. -/
theorem login_outcomes (env : Env) (now : Nat) (E : String) (s : Store)
    (hE : E ≠ "") (hu : ∃ u ∈ s.users, u.email = E) :
    (login env now Mail.sent (some E) s).1 =
      { status := 200, success := true, isExist := some true,
        message := some "OTP sent to your email" } ∧
    (∀ m, m = "EMAIL_NOT_CONFIGURED" ∨ env.NODE_ENV ≠ some "production" →
      (login env now (Mail.threw m) (some E) s).1 =
        { status := 200, success := true,
          message := some "OTP generated (email not configured - check console)",
          isExist := some true, otp := some otpCode, isDevelopment := some true }) ∧
    (∀ m, m ≠ "EMAIL_NOT_CONFIGURED" → env.NODE_ENV = some "production" →
      (login env now (Mail.threw m) (some E) s).1 =
        { status := 500, success := false,
          message := some "Failed to send OTP email. Please contact support." }) ∧
    (∀ mail, (login env now mail (some E) s).1.otp = some otpCode ↔
      ∃ m, mail = Mail.threw m ∧
        (m = "EMAIL_NOT_CONFIGURED" ∨ env.NODE_ENV ≠ some "production")) ∧
    (∀ mail, (login env now mail (some E) s).1.otp ≠ none ↔
      ∃ m, mail = Mail.threw m ∧
        (m = "EMAIL_NOT_CONFIGURED" ∨ env.NODE_ENV ≠ some "production")) ∧
    (∀ mail, (login env now mail (some E) s).1.status = 500 ↔
      ∃ m, mail = Mail.threw m ∧ m ≠ "EMAIL_NOT_CONFIGURED" ∧
        env.NODE_ENV = some "production") := by
  have hcases : ∀ mail, (∃ m, mail = Mail.threw m ∧
        (m = "EMAIL_NOT_CONFIGURED" ∨ env.NODE_ENV ≠ some "production")) ∨
      (∃ m, mail = Mail.threw m ∧ m ≠ "EMAIL_NOT_CONFIGURED" ∧
        env.NODE_ENV = some "production") ∨ mail = Mail.sent := by
    intro mail
    cases mail with
    | sent => exact Or.inr (Or.inr rfl)
    | threw m =>
      by_cases h1 : m = "EMAIL_NOT_CONFIGURED"
      · exact Or.inl ⟨m, rfl, Or.inl h1⟩
      · by_cases h2 : env.NODE_ENV = some "production"
        · exact Or.inr (Or.inl ⟨m, rfl, h1, h2⟩)
        · exact Or.inl ⟨m, rfl, Or.inr h2⟩
  refine ⟨login_sent env now E s hE hu,
    fun m h => login_threw_exposed env now E m s hE hu h,
    fun m hm hprod => login_threw_production env now E m s hE hu hm hprod, ?_, ?_, ?_⟩
  · intro mail
    rcases hcases mail with ⟨m, rfl, h⟩ | ⟨m, rfl, hm, hprod⟩ | rfl
    · rw [login_threw_exposed env now E m s hE hu h]
      exact ⟨fun _ => ⟨m, rfl, h⟩, fun _ => rfl⟩
    · rw [login_threw_production env now E m s hE hu hm hprod]
      constructor
      · intro h; simp at h
      · rintro ⟨m', hm', h⟩
        cases hm'
        rcases h with h | h
        · exact absurd h hm
        · exact absurd hprod h
    · rw [login_sent env now E s hE hu]
      constructor
      · intro h; simp at h
      · rintro ⟨m', hm', _⟩
        cases hm'
  · intro mail
    rcases hcases mail with ⟨m, rfl, h⟩ | ⟨m, rfl, hm, hprod⟩ | rfl
    · rw [login_threw_exposed env now E m s hE hu h]
      exact ⟨fun _ => ⟨m, rfl, h⟩, fun _ => by simp⟩
    · rw [login_threw_production env now E m s hE hu hm hprod]
      constructor
      · intro h; simp at h
      · rintro ⟨m', hm', h⟩
        cases hm'
        rcases h with h | h
        · exact absurd h hm
        · exact absurd hprod h
    · rw [login_sent env now E s hE hu]
      constructor
      · intro h; simp at h
      · rintro ⟨m', hm', _⟩
        cases hm'
  · intro mail
    rcases hcases mail with ⟨m, rfl, h⟩ | ⟨m, rfl, hm, hprod⟩ | rfl
    · rw [login_threw_exposed env now E m s hE hu h]
      constructor
      · intro h'; simp at h'
      · rintro ⟨m', hm', hne, hprod⟩
        cases hm'
        rcases h with h | h
        · exact absurd h hne
        · exact absurd hprod h
    · rw [login_threw_production env now E m s hE hu hm hprod]
      exact ⟨fun _ => ⟨m, rfl, hm, hprod⟩, fun _ => rfl⟩
    · rw [login_sent env now E s hE hu]
      constructor
      · intro h; simp at h
      · rintro ⟨m', hm', _⟩
        cases hm'

/-- A request in a process with `password` unbound keeps every stored email non-empty:
`register` creates nothing, `sendOTP` creates a User only behind its `!email` guard, and
no handler changes an email. -/
theorem handle_emails_nonempty (env : Env) (now : Nat) (c : Call) (s : Store)
    (hpw : env.password = none) (h : ∀ u ∈ s.users, u.email ≠ "") :
    ∀ u ∈ (handle env now c s).2.users, u.email ≠ "" := by
  cases c with
  | register vt mail name email phone =>
    simp only [handle, register, hpw]
    split <;> exact h
  | login mail email =>
    simp only [handle, login_users]
    exact h
  | sendOTP mail name phone email =>
    cases email with
    | none => simpa [handle, sendOTP] using h
    | some e =>
      cases phone with
      | none => simpa [handle, sendOTP] using h
      | some p =>
        by_cases he : e = ""
        · simpa [handle, sendOTP, truthy, he, failure] using h
        by_cases hp : p = ""
        · simpa [handle, sendOTP, truthy, hp, failure] using h
        cases hfind : User.findOne e s with
        | some v =>
          simpa [handle, sendOTP, truthy, he, hp, hfind, failure] using h
        | none =>
          have hnew := (findOne_none_iff e s).mp hfind
          simp only [handle]
          rw [sendOTP_issues_users env now mail name p e s he hp hnew]
          intro u hu
          rcases List.mem_append.mp hu with hu | hu
          · exact h u hu
          · rw [List.mem_singleton] at hu
            subst hu
            exact he
  | verifyOTP email otp =>
    simp only [handle, verifyOTP]
    split
    · split
      · exact h
      · split
        · exact h
        · split <;> exact h
    · exact h
  | getMe uid => exact h
  | updateProfile uid body =>
    have hmap := modifyAt_map_eq (applyUpdate body) (fun u : User => u.email)
    simp only [handle, updateProfile]
    split
    · exact h
    · rename_i i _
      intro u hu
      have hemail : u.email ∈ (modifyAt (applyUpdate body) i s.users).map (fun u => u.email) :=
        List.mem_map.mpr ⟨u, hu, rfl⟩
      rw [hmap i s.users (applyUpdate_email body)] at hemail
      obtain ⟨v, hv, hve⟩ := List.mem_map.mp hemail
      exact hve ▸ h v hv

/-- No store the handlers can produce holds a User with the empty email. -/
theorem reachableUnbound_emails_nonempty (s : Store) (h : ReachableUnbound s) :
    ∀ u ∈ s.users, u.email ≠ "" := by
  induction h with
  | empty => simp [emptyStore]
  | step env now c hpw _ ih => exact handle_emails_nonempty env now c _ hpw ih

theorem aliceStore_reachableUnbound : ReachableUnbound aliceStore :=
  ReachableUnbound.step _ _ _ rfl ReachableUnbound.empty

/-- C7. For every store the handlers can produce that holds a User with email `E`,
`login(E)` responds (i) 200 with `success`, `isExist = true` and no `otp` member when
`sendOTPEmail` succeeds; (ii) 200 with `success`, `isExist = true` and the raw code in
`otp` exactly when `sendOTPEmail` throws and the error is EMAIL_NOT_CONFIGURED or
`NODE_ENV` is not 'production'; (iii) 500 with `success = false` and no `otp` member
exactly when it throws another error while `NODE_ENV` is 'production'. The response
carries the code if and only if delivery failed under (ii). -/
theorem login_delivery (s : Store) (hs : ReachableUnbound s) (env : Env) (now : Nat)
    (E : String) (hu : ∃ u ∈ s.users, u.email = E) :
    (login env now Mail.sent (some E) s).1 =
      { status := 200, success := true, isExist := some true,
        message := some "OTP sent to your email" } ∧
    (∀ m, m = "EMAIL_NOT_CONFIGURED" ∨ env.NODE_ENV ≠ some "production" →
      (login env now (Mail.threw m) (some E) s).1 =
        { status := 200, success := true,
          message := some "OTP generated (email not configured - check console)",
          isExist := some true, otp := some otpCode, isDevelopment := some true }) ∧
    (∀ m, m ≠ "EMAIL_NOT_CONFIGURED" → env.NODE_ENV = some "production" →
      (login env now (Mail.threw m) (some E) s).1 =
        { status := 500, success := false,
          message := some "Failed to send OTP email. Please contact support." }) ∧
    (∀ mail, (login env now mail (some E) s).1.otp = some otpCode ↔
      ∃ m, mail = Mail.threw m ∧
        (m = "EMAIL_NOT_CONFIGURED" ∨ env.NODE_ENV ≠ some "production")) ∧
    (∀ mail, (login env now mail (some E) s).1.otp ≠ none ↔
      ∃ m, mail = Mail.threw m ∧
        (m = "EMAIL_NOT_CONFIGURED" ∨ env.NODE_ENV ≠ some "production")) ∧
    (∀ mail, (login env now mail (some E) s).1.status = 500 ↔
      ∃ m, mail = Mail.threw m ∧ m ≠ "EMAIL_NOT_CONFIGURED" ∧
        env.NODE_ENV = some "production") := by
  obtain ⟨u, hmem, hemail⟩ := hu
  have hE : E ≠ "" := hemail ▸ reachableUnbound_emails_nonempty s hs u hmem
  exact login_outcomes env now E s hE ⟨u, hmem, hemail⟩

theorem login_delivery_witness :
    ReachableUnbound aliceStore ∧ (∃ u ∈ aliceStore.users, u.email = "a@x.com") ∧
    (login { NODE_ENV := some "production", password := none } 3 Mail.sent (some "a@x.com")
        aliceStore).1 =
      { status := 200, success := true, isExist := some true,
        message := some "OTP sent to your email" } ∧
    (login { NODE_ENV := some "production", password := none } 3
        (Mail.threw "EMAIL_NOT_CONFIGURED") (some "a@x.com") aliceStore).1.otp =
      some "123456" ∧
    (login { NODE_ENV := some "production", password := none } 3
        (Mail.threw "ECONNREFUSED") (some "a@x.com") aliceStore).1.status = 500 :=
  ⟨aliceStore_reachableUnbound, by decide,
    (login_delivery aliceStore aliceStore_reachableUnbound
      { NODE_ENV := some "production", password := none } 3 "a@x.com" (by decide)).1,
    ((login_delivery aliceStore aliceStore_reachableUnbound
      { NODE_ENV := some "production", password := none } 3 "a@x.com"
      (by decide)).2.2.2.1 (Mail.threw "EMAIL_NOT_CONFIGURED")).mpr
        ⟨"EMAIL_NOT_CONFIGURED", rfl, Or.inl rfl⟩,
    ((login_delivery aliceStore aliceStore_reachableUnbound
      { NODE_ENV := some "production", password := none } 3 "a@x.com"
      (by decide)).2.2.2.2.2 (Mail.threw "ECONNREFUSED")).mpr
        ⟨"ECONNREFUSED", rfl, by decide, rfl⟩⟩


/-! ## Registration by OTP -/

theorem findIndex_of_mem {α : Type} (p : α → Bool) (l : List α) (a : α)
    (ha : a ∈ l) (hp : p a = true) : ∃ i, findIndex p l = some i := by
  induction l with
  | nil => simp at ha
  | cons b bs ih =>
    by_cases hb : p b = true
    · exact ⟨0, by simp [findIndex, hb]⟩
    · rcases List.mem_cons.mp ha with h | h
      · exact absurd (h ▸ hp) hb
      · obtain ⟨i, hi⟩ := ih h
        exact ⟨i + 1, by simp [findIndex, hb, hi]⟩

theorem login_unknown_email (env : Env) (now : Nat) (mail : Mail) (E : String) (s : Store)
    (hE : E ≠ "") (hnew : ∀ u ∈ s.users, u.email ≠ E) :
    login env now mail (some E) s =
      ({ status := 200, success := true, isExist := some false,
         message := some "User not found" }, s) := by
  have hnone := (findOne_none_iff E s).mpr hnew
  simp [login, truthy, hE, hnone]

/-- C6. For a store with no User with email `E` (`E` and `phone` non-empty): `login(E)`
responds 200 with `success = true`, `isExist = false` and leaves the store unchanged;
`sendOTP(name, phone, E)` at time `t` that responds 200 leaves a User with email `E` and
the issued record in the store; and `verifyOTP(E, code)` with the issued code at any
`t'` with `t ≤ t' < t` + 10 minutes responds 200 with `success = true` and a token for
that User's id. -/
theorem registration_round_trip (s : Store) (E phone : String) (hE : E ≠ "") (hp : phone ≠ "")
    (hnew : ∀ u ∈ s.users, u.email ≠ E) :
    (∀ env now mail, login env now mail (some E) s =
      ({ status := 200, success := true, isExist := some false,
         message := some "User not found" }, s)) ∧
    (∀ env t mail name, (sendOTP env t mail name (some phone) (some E) s).1.status = 200 →
      ∃ u ∈ (sendOTP env t mail name (some phone) (some E) s).2.users,
        u.email = E ∧ u.name = name ∧ u.phone = phone ∧
        issued E t ∈ (sendOTP env t mail name (some phone) (some E) s).2.otps ∧
        ∀ t', t ≤ t' → t' < t + 10 * 60 * 1000 →
          (verifyOTP t' (some E) (some otpCode)
              (sendOTP env t mail name (some phone) (some E) s).2).1 =
            { status := 200, success := true, token := some (generateToken u._id) }) := by
  refine ⟨fun env now mail => login_unknown_email env now mail E s hE hnew, ?_⟩
  intro env t mail name _
  have hst := sendOTP_issues env t mail name phone E s hE hp hnew
  have husers := sendOTP_issues_users env t mail name phone E s hE hp hnew
  have hmem : issued E t ∈ (sendOTP env t mail name (some phone) (some E) s).2.otps := by
    rw [hst]
    simp [OTP.create, issued]
  refine ⟨_, by rw [husers]; exact List.mem_append_right _ (List.mem_singleton_self _),
    rfl, rfl, rfl, hmem, ?_⟩
  intro t' _ hlt
  have hmatch : OTP.matches E otpCode t' (issued E t) = true := by
    simp [OTP.matches, issued]
    omega
  obtain ⟨i, hi⟩ := findIndex_of_mem _ _ _ hmem hmatch
  have hfind : User.findOne E (sendOTP env t mail name (some phone) (some E) s).2 =
      some { _id := s.nextId, name := name, email := E, phone := phone,
             password := none, profileImage := none, profileImagePublicId := none,
             emailVerificationToken := none, emailVerificationExpires := none } := by
    have hnone : s.users.find? (fun u => u.email == E) = none :=
      (findOne_none_iff E s).mpr hnew
    unfold User.findOne
    rw [husers, List.find?_append, hnone]
    simp
  rw [verifyOTP_ok t' E otpCode _ i _ hE (by decide) hi hfind]

theorem registration_round_trip_witness :
    ("a@x.com" : String) ≠ "" ∧ ("555-0100" : String) ≠ "" ∧
    (∀ u ∈ emptyStore.users, u.email ≠ "a@x.com") ∧
    login { NODE_ENV := none, password := none } 0 Mail.sent (some "a@x.com") emptyStore =
      ({ status := 200, success := true, isExist := some false,
         message := some "User not found" }, emptyStore) ∧
    (sendOTP { NODE_ENV := none, password := none } 0 Mail.sent "Alice" (some "555-0100")
        (some "a@x.com") emptyStore).1.status = 200 ∧
    (verifyOTP 599999 (some "a@x.com") (some otpCode)
        (sendOTP { NODE_ENV := none, password := none } 0 Mail.sent "Alice" (some "555-0100")
          (some "a@x.com") emptyStore).2).1.status = 200 :=
  ⟨by decide, by decide, by decide,
    (registration_round_trip emptyStore "a@x.com" "555-0100" (by decide) (by decide)
      (by decide)).1 _ 0 Mail.sent,
    by decide,
    match (registration_round_trip emptyStore "a@x.com" "555-0100" (by decide) (by decide)
      (by decide)).2 { NODE_ENV := none, password := none } 0 Mail.sent "Alice" (by decide) with
    | ⟨_, _, _, _, _, _, hver⟩ => by rw [hver 599999 (by decide) (by decide)]⟩

/-! ## Profile update -/

theorem findIndex_none_of_forall {α : Type} (p : α → Bool) (l : List α)
    (h : findIndex p l = none) : ∀ a ∈ l, p a = false := by
  intro a ha
  cases hp : p a with
  | false => rfl
  | true =>
    obtain ⟨i, hi⟩ := findIndex_of_mem p l a ha hp
    rw [h] at hi
    cases hi

theorem applyUpdate_fields (body : ProfileBody) (u : User) :
    (applyUpdate body u).name =
      (match body.name with
        | .str n => if n = "" then u.name else n
        | _ => u.name) ∧
    (applyUpdate body u).phone =
      (match body.phone with
        | .str p => if p = "" then u.phone else p
        | _ => u.phone) ∧
    (applyUpdate body u).profileImage =
      (match body.profileImage with
        | .undefined => u.profileImage
        | .null => none
        | .str x => some x) ∧
    (applyUpdate body u).profileImagePublicId =
      (match body.profileImagePublicId with
        | .undefined => u.profileImagePublicId
        | .null => none
        | .str x => some x) ∧
    (applyUpdate body u)._id = u._id ∧
    (applyUpdate body u).email = u.email ∧
    (applyUpdate body u).password = u.password ∧
    (applyUpdate body u).emailVerificationToken = u.emailVerificationToken ∧
    (applyUpdate body u).emailVerificationExpires = u.emailVerificationExpires := by
  obtain ⟨n, p, img, pid⟩ := body
  refine ⟨?_, ?_, ?_, ?_, ?_, ?_, ?_, ?_, ?_⟩ <;>
    cases n <;> cases p <;> cases img <;> cases pid <;>
    simp [applyUpdate, Field.truthy, Field.value] <;>
    (repeat' split) <;> simp_all


/-- C8, as stated, fails: the body explicitly contains `name` with the empty string as
value, and after `updateProfile` the User's name is still 'Alice', not the body's value. -/
theorem updateProfile_counterexample :
    blankNameBody.name = Field.str "" ∧
    aliceStore.users.map (fun u => u.name) = ["Alice"] ∧
    (updateProfile 0 blankNameBody aliceStore).1.status = 200 ∧
    (updateProfile 0 blankNameBody aliceStore).2.users.map (fun u => u.name) = ["Alice"] ∧
    (updateProfile 0 blankNameBody aliceStore).2.users.map (fun u => u.name) ≠ [""] := by
  decide

/-- C8, amended. `updateProfile` sets `name` and `phone` of the authenticated User to the
body's value when that value is a non-empty string and keeps the previous value otherwise
(field absent, `null` or empty); it sets `profileImage` and `profileImagePublicId` to the
body's value when the body contains the field (`null` clears it) and keeps the previous
value otherwise. Every other field of that User (email included), every other User and
every OTP record are unchanged; the response is 200 with the updated record without its
password, and 404 with `success = false`, the store unchanged, when no User has that id. -/
theorem updateProfile_sparse (s : Store) (uid : Nat) (body : ProfileBody) :
    (∀ i u, findIndex (fun v => v._id == uid) s.users = some i → s.users[i]? = some u →
      ∃ w, (updateProfile uid body s).2.users[i]? = some w ∧
        w.name = (match body.name with
          | .str n => if n = "" then u.name else n
          | _ => u.name) ∧
        w.phone = (match body.phone with
          | .str p => if p = "" then u.phone else p
          | _ => u.phone) ∧
        w.profileImage = (match body.profileImage with
          | .undefined => u.profileImage
          | .null => none
          | .str x => some x) ∧
        w.profileImagePublicId = (match body.profileImagePublicId with
          | .undefined => u.profileImagePublicId
          | .null => none
          | .str x => some x) ∧
        w._id = u._id ∧ w.email = u.email ∧ w.password = u.password ∧
        w.emailVerificationToken = u.emailVerificationToken ∧
        w.emailVerificationExpires = u.emailVerificationExpires ∧
        (∀ j, j ≠ i → (updateProfile uid body s).2.users[j]? = s.users[j]?) ∧
        (updateProfile uid body s).2.users.length = s.users.length ∧
        (updateProfile uid body s).2.otps = s.otps ∧
        (updateProfile uid body s).2.nextId = s.nextId ∧
        (updateProfile uid body s).1 =
          { status := 200, success := true, message := some "Profile updated successfully",
            data := some (.user (some (User.selectMinusPassword w))) }) ∧
    ((∀ u ∈ s.users, u._id ≠ uid) →
      updateProfile uid body s =
        ({ status := 404, success := false, message := some "User not found" }, s)) := by
  constructor
  · intro i u hi hu
    have hget : (modifyAt (applyUpdate body) i s.users)[i]? = some (applyUpdate body u) := by
      rw [modifyAt_getElem?_self, hu]
      rfl
    obtain ⟨h1, h2, h3, h4, h5, h6, h7, h8, h9⟩ := applyUpdate_fields body u
    refine ⟨applyUpdate body u, ?_, h1, h2, h3, h4, h5, h6, h7, h8, h9, ?_, ?_, ?_, ?_, ?_⟩
    · simp only [updateProfile, hi]
      exact hget
    · intro j hj
      simp only [updateProfile, hi]
      exact modifyAt_getElem?_ne _ _ _ _ hj
    · simp only [updateProfile, hi]
      exact modifyAt_length _ _ _
    · simp only [updateProfile, hi]
    · simp only [updateProfile, hi]
    · simp only [updateProfile, hi, List.get?_eq_getElem?, hget]
      rfl
  · intro hno
    have hnone : findIndex (fun v => v._id == uid) s.users = none :=
      findIndex_eq_none _ _ (fun a ha => by simpa using hno a ha)
    simp [updateProfile, hnone, failure]

theorem updateProfile_sparse_witness :
    (findIndex (fun v => v._id == 0) aliceStore.users = some 0 ∧
      aliceStore.users[0]? = some alice ∧
      ∃ w, (updateProfile 0 renameBody aliceStore).2.users[0]? = some w ∧
        w.name = "Alicia" ∧ w.phone = "555-0100" ∧ w.profileImage = none ∧
        w.email = "a@x.com") ∧
    ((∀ u ∈ emptyStore.users, u._id ≠ 4) ∧
      updateProfile 4 blankNameBody emptyStore =
        ({ status := 404, success := false, message := some "User not found" }, emptyStore)) :=
  ⟨⟨by decide, by decide,
      match (updateProfile_sparse aliceStore 0 renameBody).1 0 alice (by decide) (by decide) with
      | ⟨w, hw, hname, hphone, himg, _, _, hemail, _⟩ =>
        ⟨w, hw, hname.trans (by decide), hphone.trans (by decide), himg.trans (by decide),
          hemail.trans (by decide)⟩⟩,
    ⟨by decide, (updateProfile_sparse emptyStore 4 blankNameBody).2 (by decide)⟩⟩

/-! ## Interleaved verification -/

/-- Run without interruption, the three operations of a request are the handler. -/
theorem advance_thrice (now : Nat) (E c : String) (s : Store) :
    let a := advance now E c .start s
    let b := advance now E c a.1 a.2
    let d := advance now E c b.1 b.2
    d = (.responded (verifyOTP now (some E) (some c) s).1,
          (verifyOTP now (some E) (some c) s).2) := by
  by_cases hg : (!truthy (some E) || !truthy (some c)) = true
  · simp [advance, verifyOTP, hg]
  · cases hf : OTP.findOne E c now s with
    | none => simp [advance, verifyOTP, hg, hf]
    | some i =>
      have hsame : User.findOne E (OTP.save i s) = User.findOne E s := rfl
      cases hu : User.findOne E s with
      | none => simp [advance, verifyOTP, hg, hf, hsame, hu]
      | some u => simp [advance, verifyOTP, hg, hf, hsame, hu]

/-- C10, as stated, fails. Two requests for the one valid code of `aliceStore` whose
operations run in the order find, find, save, save, user lookup, user lookup both
respond 200 with a token. (And for the empty email, whose requests stop at the input
guard, both respond 400 although the store holds one unused, unexpired record and a User
for it.) -/
theorem concurrent_verifyOTP_counterexample :
    ((aliceStore.otps.filter (OTP.matches "a@x.com" "123456" 5)).length = 1 ∧
      User.findOne "a@x.com" aliceStore = some alice ∧
      (runSchedule 5 "a@x.com" "123456" [0, 1, 0, 1, 0, 1] (launch 2 aliceStore)).requests =
        [.responded (okResponse alice), .responded (okResponse alice)]) ∧
    ((blankOtpStore.otps.filter (OTP.matches "" "123456" 5)).length = 1 ∧
      (User.findOne "" blankOtpStore).isSome = true ∧
      (runSchedule 5 "" "123456" (serial 2) (launch 2 blankOtpStore)).requests =
        [.responded (failure 400 "Please provide email, OTP, and role"),
         .responded (failure 400 "Please provide email, OTP, and role")]) := by
  decide


theorem modifyAt_idem {α : Type} (f : α → α) (i : Nat) (l : List α) (h : ∀ a, f (f a) = f a) :
    modifyAt f i (modifyAt f i l) = modifyAt f i l := by
  induction l generalizing i with
  | nil => cases i <;> rfl
  | cons a as ih =>
    cases i with
    | zero => simp [modifyAt, h]
    | succ n => simp [modifyAt, ih]

theorem save_save (i : Nat) (s : Store) : OTP.save i (OTP.save i s) = OTP.save i s := by
  simp only [OTP.save]
  rw [modifyAt_idem _ _ _ (by intro a; rfl)]

/-- A store with exactly one record matching the lookup: `findOne` returns it, and after
its `save` the lookup matches nothing. -/
theorem findOne_of_single (E c : String) (now : Nat) (s : Store)
    (hone : (s.otps.filter (OTP.matches E c now)).length = 1) :
    ∃ i, OTP.findOne E c now s = some i ∧ OTP.findOne E c now (OTP.save i s) = none := by
  have hne : s.otps.filter (OTP.matches E c now) ≠ [] := by
    intro h
    rw [h] at hone
    cases hone
  obtain ⟨r, hr⟩ := List.exists_mem_of_ne_nil _ hne
  obtain ⟨hr1, hr2⟩ := List.mem_filter.mp hr
  obtain ⟨i, hi⟩ := findIndex_of_mem _ _ r hr1 hr2
  refine ⟨i, hi, ?_⟩
  have hnil : (modifyAt (fun r : OTP => { r with isUsed := true }) i s.otps).filter
      (OTP.matches E c now) = [] :=
    filter_modifyAt_eq_nil (OTP.matches E c now) (OTP.matches E c now) _ i s.otps hi
      (fun _ h => h) (by omega) (by intro a; simp [OTP.matches])
  unfold OTP.findOne OTP.save
  apply findIndex_eq_none
  intro a ha
  rw [List.filter_eq_nil_iff] at hnil
  simpa using hnil a ha

theorem set_forall {α : Type} (l : List α) (k : Nat) (q : α) (P : α → Prop)
    (hall : ∀ (j : Nat) (p : α), l[j]? = some p → P p) (hq : P q) :
    ∀ (j : Nat) (p : α), (l.set k q)[j]? = some p → P p := by
  intro j p hp
  rw [List.getElem?_set] at hp
  split at hp
  · split at hp
    · cases hp
      exact hq
    · cases hp
  · exact hall j p hp

theorem set_exists_self {α : Type} (l : List α) (k : Nat) (q : α) (Q : α → Prop)
    (hk : k < l.length) (hq : Q q) : ∃ (j : Nat) (p : α), (l.set k q)[j]? = some p ∧ Q p :=
  ⟨k, q, List.getElem?_set_self hk, hq⟩

theorem set_exists_other {α : Type} (l : List α) (k : Nat) (q : α) (Q : α → Prop)
    (hex : ∃ (j : Nat) (p : α), l[j]? = some p ∧ Q p)
    (hold : ∀ p, l[k]? = some p → ¬ Q p) :
    ∃ (j : Nat) (p : α), (l.set k q)[j]? = some p ∧ Q p := by
  obtain ⟨j, p, hp, hQ⟩ := hex
  have hne : k ≠ j := by
    intro h
    subst h
    exact hold p hp hQ
  exact ⟨j, p, by rw [List.getElem?_set_ne hne]; exact hp, hQ⟩

theorem lt_length_of_getElem? {α : Type} (l : List α) (k : Nat) (p : α)
    (h : l[k]? = some p) : k < l.length := by
  obtain ⟨hk, _⟩ := List.getElem?_eq_some.mp h
  exact hk

/-- One scheduler step keeps the invariant. -/
theorem stepRequest_inv (now : Nat) (E c : String) (s : Store) (i : Nat) (u : User)
    (hE : E ≠ "") (hc : c ≠ "") (hf : OTP.findOne E c now s = some i)
    (hf2 : OTP.findOne E c now (OTP.save i s) = none) (hu : User.findOne E s = some u)
    (k : Nat) (st : Concurrent) (h : ConcInv s i u st) :
    ConcInv s i u (stepRequest now E c k st) := by
  have hu2 : User.findOne E (OTP.save i s) = some u := hu
  have ht : (E != "") = true := by simpa using hE
  have htc : (c != "") = true := by simpa using hc
  unfold stepRequest
  cases hk : st.requests[k]? with
  | none => exact h
  | some p =>
    have hlt := lt_length_of_getElem? _ _ _ hk
    rcases h with ⟨hs, hall⟩ | ⟨hs, hall, hex⟩
    · rcases hall k p hk with rfl | rfl
      · left
        simp only [advance, truthy, hs, hf, ht, htc, Bool.not_true, Bool.or_self,
          Bool.false_eq_true, if_false]
        exact ⟨trivial, set_forall _ _ _ _ hall (Or.inr rfl)⟩
      · right
        simp only [advance, hs]
        exact ⟨trivial, set_forall _ _ _ _
            (fun j p hp => (hall j p hp).elim Or.inl (fun h => Or.inr (Or.inl h)))
            (Or.inr (Or.inr (Or.inl rfl))),
          set_exists_self _ _ _ _ hlt (Or.inl rfl)⟩
    · right
      rcases hall k p hk with rfl | rfl | rfl | rfl | rfl
      · simp only [advance, truthy, hs, hf2, ht, htc, Bool.not_true, Bool.or_self,
          Bool.false_eq_true, if_false]
        refine ⟨trivial, set_forall _ _ _ _ hall (Or.inr (Or.inr (Or.inr (Or.inr rfl)))),
          set_exists_other _ _ _ _ hex ?_⟩
        intro p hp hQ
        rw [hk] at hp
        cases hp
        rcases hQ with hQ | hQ <;> cases hQ
      · simp only [advance, hs, save_save]
        exact ⟨trivial, set_forall _ _ _ _ hall (Or.inr (Or.inr (Or.inl rfl))),
          set_exists_self _ _ _ _ hlt (Or.inl rfl)⟩
      · simp only [advance, hs, hu2]
        exact ⟨trivial, set_forall _ _ _ _ hall (Or.inr (Or.inr (Or.inr (Or.inl rfl)))),
          set_exists_self _ _ _ _ hlt (Or.inr rfl)⟩
      · simp only [advance]
        exact ⟨hs, set_forall _ _ _ _ hall (Or.inr (Or.inr (Or.inr (Or.inl rfl)))),
          set_exists_self _ _ _ _ hlt (Or.inr rfl)⟩
      · simp only [advance]
        refine ⟨hs, set_forall _ _ _ _ hall (Or.inr (Or.inr (Or.inr (Or.inr rfl)))),
          set_exists_other _ _ _ _ hex ?_⟩
        intro p hp hQ
        rw [hk] at hp
        cases hp
        rcases hQ with hQ | hQ
        · cases hQ
        · simp [okResponse, unauthorized] at hQ

theorem runSchedule_inv (now : Nat) (E c : String) (s : Store) (i : Nat) (u : User)
    (hE : E ≠ "") (hc : c ≠ "") (hf : OTP.findOne E c now s = some i)
    (hf2 : OTP.findOne E c now (OTP.save i s) = none) (hu : User.findOne E s = some u)
    (sched : List Nat) (st : Concurrent) (h : ConcInv s i u st) :
    ConcInv s i u (runSchedule now E c sched st) := by
  induction sched generalizing st with
  | nil => exact h
  | cons k ks ih =>
    exact ih _ (stepRequest_inv now E c s i u hE hc hf hf2 hu k st h)

theorem launch_inv (n : Nat) (s : Store) (i : Nat) (u : User) : ConcInv s i u (launch n s) := by
  left
  refine ⟨rfl, ?_⟩
  intro k p hp
  simp only [launch, List.getElem?_replicate] at hp
  split at hp
  · cases hp
    exact Or.inl rfl
  · cases hp

theorem stepRequest_length (now : Nat) (E c : String) (k : Nat) (st : Concurrent) :
    (stepRequest now E c k st).requests.length = st.requests.length := by
  unfold stepRequest
  split
  · rfl
  · simp

theorem runSchedule_length (now : Nat) (E c : String) (sched : List Nat) (st : Concurrent) :
    (runSchedule now E c sched st).requests.length = st.requests.length := by
  induction sched generalizing st with
  | nil => rfl
  | cons k ks ih =>
    exact (ih _).trans (stepRequest_length now E c k st)


theorem set_same {α : Type} (l : List α) (k : Nat) (p : α) (h : l[k]? = some p) :
    l.set k p = l := by
  apply List.ext_getElem?
  intro j
  rw [List.getElem?_set]
  split
  · subst_vars
    split
    · exact h.symm
    · rw [List.getElem?_eq_none (by omega)]
  · rfl

/-- A scheduler step for a request that has responded changes nothing. -/
theorem stepRequest_responded (now : Nat) (E c : String) (k : Nat) (st : Concurrent)
    (r : Response) (h : st.requests[k]? = some (.responded r)) :
    stepRequest now E c k st = st := by
  unfold stepRequest
  rw [h]
  simp only [advance]
  rw [set_same _ _ _ h]

theorem serial_succ (k : Nat) : serial (k + 1) = serial k ++ [k, k, k] := by
  simp [serial, List.range_succ, List.flatMap_append]

theorem runSchedule_append (now : Nat) (E c : String) (a b : List Nat) (st : Concurrent) :
    runSchedule now E c (a ++ b) st = runSchedule now E c b (runSchedule now E c a st) := by
  simp [runSchedule, List.foldl_append]

/-- The state after the first `j + 1` requests of the serial schedule. -/
theorem serial_run (now : Nat) (E c : String) (s : Store) (i : Nat) (u : User)
    (hE : E ≠ "") (hc : c ≠ "") (hf : OTP.findOne E c now s = some i)
    (hf2 : OTP.findOne E c now (OTP.save i s) = none) (hu : User.findOne E s = some u)
    (n j : Nat) (hj : j + 1 ≤ n) :
    runSchedule now E c (serial (j + 1)) (launch n s) =
      { store := OTP.save i s,
        requests := Progress.responded (okResponse u) ::
          (List.replicate j (Progress.responded unauthorized) ++
            List.replicate (n - 1 - j) Progress.start) } := by
  have hu2 : User.findOne E (OTP.save i s) = some u := hu
  have ht : (E != "") = true := by simpa using hE
  have htc : (c != "") = true := by simpa using hc
  induction j with
  | zero =>
    obtain ⟨m, rfl⟩ : ∃ m, n = m + 1 := ⟨n - 1, by omega⟩
    have hser : serial 1 = [0, 0, 0] := by decide
    have h1 : stepRequest now E c 0
        { store := s, requests := Progress.start :: List.replicate m Progress.start } =
        { store := s, requests := Progress.found i :: List.replicate m Progress.start } := by
      simp [stepRequest, advance, truthy, ht, htc, hf]
    have h2 : stepRequest now E c 0
        { store := s, requests := Progress.found i :: List.replicate m Progress.start } =
        { store := OTP.save i s,
          requests := Progress.saved :: List.replicate m Progress.start } := by
      simp [stepRequest, advance]
    have h3 : stepRequest now E c 0
        { store := OTP.save i s,
          requests := Progress.saved :: List.replicate m Progress.start } =
        { store := OTP.save i s,
          requests := Progress.responded (okResponse u) ::
            List.replicate m Progress.start } := by
      simp [stepRequest, advance, hu2, okResponse]
    simp only [hser, runSchedule, launch, List.replicate_succ, List.foldl_cons, List.foldl_nil,
      h1, h2, h3]
    simp
  | succ j ih =>
    rw [serial_succ, runSchedule_append, ih (by omega)]
    obtain ⟨m, hm⟩ : ∃ m, n - 1 - j = m + 1 := ⟨n - 1 - j - 1, by omega⟩
    have hm2 : n - 1 - (j + 1) = m := by omega
    rw [hm, hm2]
    have hget : (Progress.responded (okResponse u) ::
        (List.replicate j (Progress.responded unauthorized) ++
          List.replicate (m + 1) Progress.start))[j + 1]? = some Progress.start := by
      rw [List.getElem?_cons_succ, List.getElem?_append_right (by simp)]
      simp [List.replicate_succ]
    have hset : (Progress.responded (okResponse u) ::
        (List.replicate j (Progress.responded unauthorized) ++
          List.replicate (m + 1) Progress.start)).set (j + 1) (Progress.responded unauthorized)
        = Progress.responded (okResponse u) ::
          (List.replicate (j + 1) (Progress.responded unauthorized) ++
            List.replicate m Progress.start) := by
      have hr : List.replicate (m + 1) Progress.start =
          Progress.start :: List.replicate m Progress.start := List.replicate_succ _ _
      have hr2 : List.replicate (j + 1) (Progress.responded unauthorized) =
          List.replicate j (Progress.responded unauthorized) ++
            [Progress.responded unauthorized] := List.replicate_succ' _ _
      rw [List.set_cons_succ, List.set_append_right _ _ (by simp)]
      simp only [List.length_replicate, Nat.sub_self]
      rw [hr, List.set_cons_zero, hr2, List.append_assoc]
      rfl
    have hstep : stepRequest now E c (j + 1)
        { store := OTP.save i s,
          requests := Progress.responded (okResponse u) ::
            (List.replicate j (Progress.responded unauthorized) ++
              List.replicate (m + 1) Progress.start) } =
        { store := OTP.save i s,
          requests := Progress.responded (okResponse u) ::
            (List.replicate (j + 1) (Progress.responded unauthorized) ++
              List.replicate m Progress.start) } := by
      unfold stepRequest
      have hun : failure 401 "Invalid or expired OTP" = unauthorized := rfl
      simp only [hget, advance, truthy, ht, htc, hf2, Bool.not_true, Bool.or_self,
        Bool.false_eq_true, if_false]
      rw [hun, hset]
    have hdone : (Progress.responded (okResponse u) ::
        (List.replicate (j + 1) (Progress.responded unauthorized) ++
          List.replicate m Progress.start))[j + 1]? = some (Progress.responded unauthorized) := by
      rw [List.getElem?_cons_succ, List.getElem?_append_left (by simp)]
      simp [List.getElem?_replicate]
    have hstay : stepRequest now E c (j + 1)
        { store := OTP.save i s,
          requests := Progress.responded (okResponse u) ::
            (List.replicate (j + 1) (Progress.responded unauthorized) ++
              List.replicate m Progress.start) } =
        { store := OTP.save i s,
          requests := Progress.responded (okResponse u) ::
            (List.replicate (j + 1) (Progress.responded unauthorized) ++
              List.replicate m Progress.start) } :=
      stepRequest_responded now E c (j + 1) _ unauthorized hdone
    simp only [runSchedule, List.foldl_cons, List.foldl_nil]
    rw [hstep, hstay, hstay]


/-- C10, amended. For a store holding exactly one unused, unexpired OTP record for `(E, c)`
(`E` and `c` non-empty) and a User with email `E`, and `n ≥ 2` concurrent `verifyOTP(E, c)`
requests: under every interleaving of their store operations every response is the 200
with a token for that User or the 401, and once all requests have responded at least one
of them has responded 200; when the requests run one after the other, the first
responds 200 and all the others respond 401. -/
theorem concurrent_verifyOTP (s : Store) (E c : String) (now : Nat) (u : User) (n : Nat)
    (hn : 2 ≤ n) (hE : E ≠ "") (hc : c ≠ "")
    (hone : (s.otps.filter (OTP.matches E c now)).length = 1)
    (hu : User.findOne E s = some u) :
    (∀ sched : List Nat,
      (∀ (k : Nat) (r : Response),
        (runSchedule now E c sched (launch n s)).requests[k]? = some (Progress.responded r) →
          r = okResponse u ∨ r = unauthorized) ∧
      ((∀ p ∈ (runSchedule now E c sched (launch n s)).requests, p.isResponded = true) →
        ∃ k : Nat, (runSchedule now E c sched (launch n s)).requests[k]?
          = some (Progress.responded (okResponse u)))) ∧
    (runSchedule now E c (serial n) (launch n s)).requests =
      Progress.responded (okResponse u) ::
        List.replicate (n - 1) (Progress.responded unauthorized) := by
  obtain ⟨i, hf, hf2⟩ := findOne_of_single E c now s hone
  refine ⟨fun sched => ?_, ?_⟩
  · have hinv := runSchedule_inv now E c s i u hE hc hf hf2 hu sched (launch n s)
      (launch_inv n s i u)
    have hlen : (runSchedule now E c sched (launch n s)).requests.length = n := by
      rw [runSchedule_length]
      simp [launch]
    constructor
    · intro k r hk
      rcases hinv with ⟨_, hall⟩ | ⟨_, hall, _⟩
      · rcases hall k _ hk with h | h <;> cases h
      · rcases hall k _ hk with h | h | h | h | h
        · cases h
        · cases h
        · cases h
        · exact Or.inl (Progress.responded.inj h)
        · exact Or.inr (Progress.responded.inj h)
    · intro hdone
      rcases hinv with ⟨_, hall⟩ | ⟨_, _, k, p, hk, hp⟩
      · have h0 : 0 < (runSchedule now E c sched (launch n s)).requests.length := by omega
        have hget : (runSchedule now E c sched (launch n s)).requests[0]? =
            some ((runSchedule now E c sched (launch n s)).requests[0]) :=
          List.getElem?_eq_getElem h0
        have hresp := hdone _ (List.getElem_mem h0)
        rcases hall 0 _ hget with h | h <;> rw [h] at hresp <;> cases hresp
      · have hmem : p ∈ (runSchedule now E c sched (launch n s)).requests :=
          List.mem_iff_getElem?.mpr ⟨k, hk⟩
        have hresp := hdone p hmem
        rcases hp with h | h
        · rw [h] at hresp
          cases hresp
        · exact ⟨k, h ▸ hk⟩
  · obtain ⟨m, rfl⟩ : ∃ m, n = m + 1 := ⟨n - 1, by omega⟩
    rw [serial_run now E c s i u hE hc hf hf2 hu (m + 1) m (by omega)]
    simp

theorem concurrent_verifyOTP_witness :
    (2 : Nat) ≤ 2 ∧ ("a@x.com" : String) ≠ "" ∧ ("123456" : String) ≠ "" ∧
    (aliceStore.otps.filter (OTP.matches "a@x.com" "123456" 5)).length = 1 ∧
    User.findOne "a@x.com" aliceStore = some alice ∧
    (runSchedule 5 "a@x.com" "123456" (serial 2) (launch 2 aliceStore)).requests =
      [Progress.responded (okResponse alice), Progress.responded unauthorized] :=
  ⟨by decide, by decide, by decide, by decide, by decide,
    (concurrent_verifyOTP aliceStore "a@x.com" "123456" 5 alice 2 (by decide) (by decide)
      (by decide) (by decide) (by decide)).2⟩

end AuthController
